import Mathlib

/-!
Shallow embedding of `src/borg-backup/backup-borg-s3.py`.

The script is a single sequential pipeline.  We embed it as a writer +
exception computation: every external invocation appends an `Event` to a
trace, and Python exceptions (`subprocess.CalledProcessError` raised by
`check=True`, `FileExistsError` from `os.mkdir`, `ValueError` from `int()`,
`TypeError` from assigning `None` into `os.environ`, and `SystemExit` from
`exit(1)`) become `Err` values.  The outcomes of the external commands the
script runs (ssh, scp, borg, aws, tar, docker, curl) are supplied by an
`Oracle` so that every theorem quantifies over all possible behaviours of
the external world.
-/

namespace BorgBackup

/-- Constant prefixes and directory names from the top of the script. -/
def HOME_PRE : String := "home-backup"

def ROUTER_PRE : String := "router-backup"

def PIHOLE_PRE : String := "pihole-backup"

def ETC_PRE : String := "etc-backup"

/-- `ALL_PREFIXES` tuple of the script, used by `prune_repo`. -/
def ALL_PRE : List String := [HOME_PRE, ROUTER_PRE, PIHOLE_PRE, ETC_PRE]

def PIHOLE_BACKUP_DIR : String := "pi-hole-backup"

def ROUTER_BACKUP_DIR : String := "openwrt-backup"

def ROUTER_TAR_NAME : String := "openwrt.tar.gz"

/-- `DEBUG=False` in the script. -/
def DEBUG : Bool := false

/-- The `ENV_VARS` tuple checked at the start of `main` (`DOCKER_DIR` is
commented out in the source). -/
def ENV_VARS : List String :=
  ["ROUTER_HOST", "PIHOLE_HOST", "SSH_PRIVATE_KEY_PATH", "BORG_REPO",
   "BORG_EXTDRIVE_REPO", "BORG_S3_BACKUP_BUCKET", "BORG_S3_BACKUP_AWS_PROFILE",
   "PUSHOVER_URL", "PUSHOVER_TOKEN", "PUSHOVER_USER_TOKEN"]

/-- Python exceptions that can escape a step, plus `exit(1)`.
`unboundLocal` is the `UnboundLocalError` raised by `logger.debug(result)`
in the collection except-handlers when the first statement of the `try`
block raised, leaving the local `result` unbound. -/
inductive Err where
  | calledProcess
  | exited (code : Nat)
  | fileExists
  | valueError
  | typeError
  | unboundLocal
  deriving DecidableEq

/-- One externally visible action of the script. -/
inductive Event where
  | stopDocker
  | startDocker
  | borgCreate (repo name dir : String)
  | prune (repo pfx : String)
  | sizeQuery (repo : String)
  | awsSync (repo : String)
  | infoQuery (repo : String)
  | bucketSize
  | notify (title msg : String)
  | sshRun (host cmd : String)
  | scpRun (host rpath lpath : String)
  | mkdirRun (dir : String)
  | tarRun (desc : String)
  | rmRun (pat : String)
  deriving DecidableEq

/-- A run of a fragment of the script: the emitted trace together with the
normal return value or the escaping exception. -/
abbrev RunM (α : Type) : Type := List Event × Except Err α

def RunM.bind {α β : Type} (x : RunM α) (f : α → RunM β) : RunM β :=
  match x.2 with
  | Except.error e => (x.1, Except.error e)
  | Except.ok a => (x.1 ++ (f a).1, (f a).2)

instance : Monad RunM where
  pure a := ([], Except.ok a)
  bind := RunM.bind

/-- Append one event to the trace. -/
def emit (e : Event) : RunM Unit := ([e], Except.ok ())

/-- Raise a Python exception. -/
def throwErr {α : Type} (e : Err) : RunM α := ([], Except.error e)

/-- `try ... except subprocess.CalledProcessError: handler`.  Only
`CalledProcessError` is caught; any other exception propagates. -/
def tryCPE {α : Type} (x handler : RunM α) : RunM α :=
  match x.2 with
  | Except.error Err.calledProcess => (x.1 ++ handler.1, handler.2)
  | _ => x

/-- The collection functions' `try: result = s1; ... except
CalledProcessError: logger.debug(result); handler` shape (source lines
138-145 and 162-169).  If the FIRST statement of the `try` block raises
`CalledProcessError`, the local `result` was never bound, so the handler's
`logger.debug(result)` raises `UnboundLocalError`, which propagates
uncaught (no notification is sent); if a later statement raises, `result`
is bound and the handler runs normally. -/
def tryCPEFirst {α : Type} (s1 : RunM Unit) (rest handler : RunM α) :
    RunM α :=
  match s1.2 with
  | Except.error Err.calledProcess => (s1.1, Except.error Err.unboundLocal)
  | Except.error e => (s1.1, Except.error e)
  | Except.ok _ => tryCPE (RunM.bind s1 (fun _ => rest)) handler

/-- The process environment: `none` models an unset variable. -/
abbrev EnvT : Type := String → Option String

/-- `os.environ.get(v)` interpolated into an f-string: `None` prints as
`"None"`. -/
def envStr (env : EnvT) (v : String) : String := (env v).getD "None"

/-- Python truthiness of `os.environ.get(v)`: falsy iff unset or empty. -/
def missingEnv (env : EnvT) (v : String) : Bool :=
  match env v with
  | none => true
  | some s => s == ""

/-- Outcomes of the external world for one run.  `sshOk`/`scpOk` are keyed by
the full argument data of the call; `borgCreateOk` by repo, archive name and
source directory.  `sizeOut r` is the integer printed by the
`borg info --json | jq | awk` pipeline of `get_backup_size` (awk's
`printf "%d"` always prints a decimal integer when the pipeline exits 0), and
`sizeRc r` is that pipeline's exit status.  `now` is
`datetime.now().strftime(...)` (the script's `CURRENT_TIME`). -/
structure Oracle where
  sshOk : String → String → Bool
  scpOk : String → String → String → Bool
  routerMkdirOk : Bool
  piholeMkdirOk : Bool
  routerExtractRc : Int
  piholeExtractRc : Int
  borgCreateOk : String → String → String → Bool
  awsSyncOk : Bool
  sizeRc : String → Int
  sizeOut : String → Int
  repoInfoRc : Int
  repoInfoOut : String
  bucketSizeOk : Bool
  bucketSizeOut : String
  now : String

/-- `ssh(host, command)`: `subprocess.run([f"ssh -i {key} {host} {command}"],
check=not DEBUG, shell=True)`. -/
def ssh (o : Oracle) (host cmd : String) : RunM Unit := do
  emit (Event.sshRun host cmd)
  if o.sshOk host cmd then pure ()
  else if DEBUG then pure () else throwErr Err.calledProcess

/-- `scp(host, remote_path, local_path)`. -/
def scp (o : Oracle) (host rpath lpath : String) : RunM Unit := do
  emit (Event.scpRun host rpath lpath)
  if o.scpOk host rpath lpath then pure ()
  else if DEBUG then pure () else throwErr Err.calledProcess

/-- `os.mkdir(dir)`: raises `FileExistsError` when the directory already
exists (`ok = false`). -/
def mkdirStep (ok : Bool) (dir : String) : RunM Unit := do
  emit (Event.mkdirRun dir)
  if ok then pure () else throwErr Err.fileExists

/-- A `tar` extraction run without `check=True`: never raises, returns the
tool's exit code. -/
def tarStep (desc : String) (rc : Int) : RunM Int := do
  emit (Event.tarRun desc)
  pure rc

/-- `send_notification(title, message)`: a `curl` run without `check=True`;
never raises. -/
def send_notification (title msg : String) : RunM Unit :=
  emit (Event.notify title msg)

/-- `stop_docker()`: `subprocess.run(["docker stop $(docker ps -a -q)"],
shell=True)` with no `check`, so it never raises. -/
def stop_docker : RunM Unit := emit Event.stopDocker

/-- `start_docker()`. -/
def start_docker : RunM Unit := emit Event.startDocker

/-- `cleanup()`: two unchecked `rm -rf` runs. -/
def cleanup : RunM Unit := do
  emit (Event.rmRun "openwrt*")
  emit (Event.rmRun "pi-hole*")

/-- Archive name built in `backup_to_repo`: `f"{prefix}-{CURRENT_TIME}"`. -/
def mkName (pre now : String) : String := pre ++ "-" ++ now

/-- `borg_create(...)`: `subprocess.run(cmd, check=True, shell=True)`;
with `check=True` a returned `CompletedProcess` has exit code 0, otherwise
`CalledProcessError` is raised.  (`dry_run` only changes command flags.) -/
def borg_create (o : Oracle) (repo name dir excl : String) (dryRun : Bool) :
    RunM Int := do
  emit (Event.borgCreate repo name dir)
  if o.borgCreateOk repo name dir then pure 0 else throwErr Err.calledProcess

/-- `get_router_backup()`: three remote steps inside
`try/except CalledProcessError`, then `os.mkdir` and an unchecked local
`tar` extraction outside the `try`; returns the extraction's exit code.
A failure of the FIRST remote step raises `UnboundLocalError` inside the
handler (`logger.debug(result)` with `result` unbound, line 143), so only
a transfer/delete failure notifies and returns 1. -/
def get_router_backup (env : EnvT) (o : Oracle) : RunM Int := do
  let uh := "root@" ++ envStr env "ROUTER_HOST"
  let early ← tryCPEFirst
    (ssh o uh ("tar -cvzf " ++ ROUTER_TAR_NAME ++ " /etc"))
    (do
      scp o uh ROUTER_TAR_NAME "."
      ssh o uh ("rm -rf " ++ ROUTER_TAR_NAME)
      pure false)
    (do
      send_notification "Error retrieving Openwrt.lan backup" "CalledProcessError"
      pure true)
  if early then pure 1
  else do
    mkdirStep o.routerMkdirOk ROUTER_BACKUP_DIR
    tarStep ("tar xzvf " ++ ROUTER_TAR_NAME ++ " -C " ++ ROUTER_BACKUP_DIR)
      o.routerExtractRc

/-- `get_pihole_backup()`: same shape as the router collection, with the
same unbound-`result` handler hazard at line 167. -/
def get_pihole_backup (env : EnvT) (o : Oracle) : RunM Int := do
  let uh := "pi@" ++ envStr env "PIHOLE_HOST"
  let early ← tryCPEFirst
    (ssh o uh "pihole -a -t")
    (do
      scp o uh "pi-hole*" "."
      ssh o uh "rm -rf pi-hole*"
      pure false)
    (do
      send_notification "Error retrieving Pi-Hole backup" "CalledProcessError"
      pure true)
  if early then pure 1
  else do
    mkdirStep o.piholeMkdirOk PIHOLE_BACKUP_DIR
    tarStep ("tar xzvf pi-hole-raspberrypi-teleporter* -C " ++ PIHOLE_BACKUP_DIR)
      o.piholeExtractRc

/-- One `if create_..._archive:` guarded block of `backup_to_repo`. -/
def guardedCreate (o : Oracle) (repo : String) (flag : Bool)
    (pre dir : String) : RunM Int :=
  if flag then borg_create o repo (mkName pre o.now) dir "excludes.txt" DEBUG
  else pure 0

/-- `backup_to_repo(borg_repo, create_router_archive, create_pihole_archive)`:
four `borg_create` calls (router/pihole guarded by their flags), returning the
final `result.returncode` — that of the unconditional `/etc` archive. -/
def backup_to_repo (o : Oracle) (repo : String)
    (createRouter createPihole : Bool) : RunM Int := do
  let _ ← borg_create o repo (mkName HOME_PRE o.now) "/home" "excludes.txt" DEBUG
  let _ ← guardedCreate o repo createRouter ROUTER_PRE ROUTER_BACKUP_DIR
  let _ ← guardedCreate o repo createPihole PIHOLE_PRE PIHOLE_BACKUP_DIR
  borg_create o repo (mkName ETC_PRE o.now) "/etc" "excludes.txt" DEBUG

/-- The `for prefix in ALL_PREFIXES` loop of `prune_repo`: each iteration is
an unchecked `borg prune` run. -/
def pruneLoop (repo : String) : List String → RunM Unit
  | [] => pure ()
  | p :: ps => do
      emit (Event.prune repo p)
      pruneLoop repo ps

/-- `prune_repo(borg_repo)`. -/
def prune_repo (repo : String) : RunM Unit := pruneLoop repo ALL_PRE

/-- `get_repo_info(borg_repo)`: unchecked captured run; returns stdout when
the exit code is 0, else the empty string. -/
def get_repo_info (o : Oracle) (repo : String) : RunM String := do
  emit (Event.infoQuery repo)
  pure (if o.repoInfoRc == 0 then o.repoInfoOut else "")

/-- `get_backup_size(borg_repo)`: the `borg info --json | jq | awk` pipeline;
returns `int(stdout)` when the pipeline exits 0, else 0. -/
def get_backup_size (o : Oracle) (repo : String) : RunM Int := do
  emit (Event.sizeQuery repo)
  pure (if o.sizeRc repo == 0 then o.sizeOut repo else 0)

/-- Decimal digit value of a character. -/
def digitVal? (c : Char) : Option Nat :=
  if 48 ≤ c.toNat ∧ c.toNat ≤ 57 then some (c.toNat - 48) else none

/-- Accumulate a decimal number from a digit list; `none` on a non-digit. -/
def natOfDigitsAux : List Char → Nat → Option Nat
  | [], acc => some acc
  | c :: cs, acc =>
    match digitVal? c with
    | some d => natOfDigitsAux cs (acc * 10 + d)
    | none => none

/-- Python's `int(s)` for a plain decimal string: an optional sign followed
by at least one digit; `none` models the `ValueError` cases. -/
def intOfStr? (s : String) : Option Int :=
  match s.data with
  | [] => none
  | '-' :: [] => none
  | '-' :: c :: cs => (natOfDigitsAux (c :: cs) 0).map (fun n => -(n : Int))
  | '+' :: [] => none
  | '+' :: c :: cs => (natOfDigitsAux (c :: cs) 0).map (fun n => (n : Int))
  | c :: cs => (natOfDigitsAux (c :: cs) 0).map (fun n => (n : Int))

/-- `int(os.environ.get("BACKUP_THRESHOLD", 0))`: 0 when unset; a set value
is parsed as a decimal integer, raising `ValueError` otherwise. -/
def parseThreshold (env : EnvT) : RunM Int :=
  match env "BACKUP_THRESHOLD" with
  | none => pure 0
  | some s =>
    match intOfStr? s with
    | some n => pure n
    | none => throwErr Err.valueError

/-- The `f"Backup size {s} GB is larger than threshold {t} GB"` message. -/
def thresholdMsg (size threshold : Int) : String :=
  "Backup size " ++ toString size ++ " GB is larger than threshold " ++
    toString threshold ++ " GB"

/-- The threshold check at the top of `backup_to_aws`: measures the size
only when the threshold is positive, and reports whether the early
`return 1` was taken. -/
def thresholdGate (o : Oracle) (repo : String) (threshold : Int) :
    RunM Bool :=
  if threshold > 0 then do
    let size ← get_backup_size o repo
    if size > threshold then do
      send_notification "Backup Threshold" (thresholdMsg size threshold)
      pure true
    else pure false
  else pure false

/-- `backup_to_aws(borg_repo)`: when the threshold is positive, measure the
deduplicated size and skip (notify, return 1) if it exceeds the threshold;
otherwise run the guarded `aws s3 sync` (`check=True` inside
`try/except CalledProcessError`), notifying and returning 1 on failure. -/
def backup_to_aws (env : EnvT) (o : Oracle) (repo : String) : RunM Int := do
  let threshold ← parseThreshold env
  let early ← thresholdGate o repo threshold
  if early then pure 1
  else do
    emit (Event.awsSync repo)
    if o.awsSyncOk then pure 0
    else do
      send_notification "Error syncing with AWS" "CalledProcessError"
      pure 1

/-- `get_aws_bucket_size()`: captured `check=True` run inside
`try/except CalledProcessError`, returning `""` on failure. -/
def get_aws_bucket_size (o : Oracle) : RunM String := do
  emit Event.bucketSize
  pure (if o.bucketSizeOk then o.bucketSizeOut else "")

/-- `os.environ['BORG_PASSPHRASE'] = os.environ.get("BORG_EXTDRIVE_PASSPHRASE")`:
assigning `None` into `os.environ` raises `TypeError`. -/
def setExtPassphrase (env : EnvT) : RunM Unit :=
  match env "BORG_EXTDRIVE_PASSPHRASE" with
  | none => throwErr Err.typeError
  | some _ => pure ()

/-- The `for env_var in ENV_VARS` startup check: `exit(1)` at the first
missing (unset or empty) variable. -/
def checkEnvVars (env : EnvT) : List String → RunM Unit
  | [] => pure ()
  | v :: vs =>
      if missingEnv env v then throwErr (Err.exited 1) else checkEnvVars env vs

/-- The `if status == 0:` block after the primary pass: prune, replicate,
and query repository statistics (otherwise `borg_info` stays `""`). -/
def primaryPostCreate (env : EnvT) (o : Oracle) (repo : String)
    (status : Int) : RunM String :=
  if status == 0 then do
    prune_repo repo
    let _ ← backup_to_aws env o repo
    get_repo_info o repo
  else pure ""

/-- The `if status == 0:` prune after the secondary pass. -/
def maybePrune (repo : String) (status2 : Int) : RunM Unit :=
  if status2 == 0 then prune_repo repo else pure ()

/-- The final notification: success message or `"Backup failed"`. -/
def finalNotify (status2 : Int) (binfo bucket : String) : RunM Unit :=
  if status2 == 0 then
    send_notification "Backup Successful"
      ("Borg NAS Stats: \n" ++ binfo ++ "\nAWS bucket size: " ++ bucket)
  else
    send_notification "Backup failed" ("Exit code " ++ toString status2)

/-- `main()`: the whole pipeline in source order. -/
def main (env : EnvT) (o : Oracle) : RunM Unit := do
  checkEnvVars env ENV_VARS
  let routerRc ← get_router_backup env o
  let piholeRc ← get_pihole_backup env o
  let createRouter := routerRc == 0
  let createPihole := piholeRc == 0
  stop_docker
  let repo := envStr env "BORG_REPO"
  let status ← backup_to_repo o repo createRouter createPihole
  let binfo ← primaryPostCreate env o repo status
  setExtPassphrase env
  let extRepo := envStr env "BORG_EXTDRIVE_REPO"
  let status2 ← backup_to_repo o extRepo createRouter createPihole
  maybePrune extRepo status2
  cleanup
  start_docker
  let bucket ← get_aws_bucket_size o
  finalNotify status2 binfo bucket

/-- The process exit code: 0 on a normal return of `main`, the argument of
`exit(...)` when that was called, and 1 for an uncaught Python exception. -/
def exitCode (x : RunM Unit) : Nat :=
  match x.2 with
  | Except.ok _ => 0
  | Except.error (Err.exited n) => n
  | Except.error _ => 1

/-! ### Invocation forms

For the shell-injection claim we model each `subprocess.run` call site by the
exact `argv` list the script constructs and the `shell=` flag it passes.
A discrete-argv invocation has `shell = false` and one list element per
argument; every `shell = true` call site in the script passes a single
interpolated command string. -/

structure Invocation where
  argv : List String
  shell : Bool
  deriving DecidableEq

/-- `borg_create`'s command (source lines 104-113). -/
def borg_create_cmd (repo name dir excl : String) (dryRun : Bool) : Invocation :=
  ⟨["borg create " ++ (if dryRun then "--dry-run " else "") ++
      repo ++ "::" ++ name ++ " " ++ dir ++ " " ++
      (if dryRun then "-v " else "--stats ") ++
      "--exclude-from " ++ excl ++ " --compression zlib,6"], true⟩

/-- `ssh`'s command (line 122). -/
def ssh_cmd (key host c : String) : Invocation :=
  ⟨["ssh -i " ++ key ++ " " ++ host ++ " " ++ c], true⟩

/-- `scp`'s command (line 129). -/
def scp_cmd (key host rpath lpath : String) : Invocation :=
  ⟨["scp -i " ++ key ++ " " ++ host ++ ":" ++ rpath ++ " " ++ lpath], true⟩

/-- The router bundle extraction (line 149) — the only discrete argv list in
the script. -/
def router_extract_cmd : Invocation :=
  ⟨["tar", "xzvf", ROUTER_TAR_NAME, "-C", ROUTER_BACKUP_DIR], false⟩

/-- The pihole bundle extraction (line 173). -/
def pihole_extract_cmd : Invocation :=
  ⟨["tar xzvf pi-hole-raspberrypi-teleporter* -C " ++ PIHOLE_BACKUP_DIR], true⟩

/-- `stop_docker` (line 223). -/
def stop_docker_cmd : Invocation := ⟨["docker stop $(docker ps -a -q)"], true⟩

/-- `start_docker` (line 230). -/
def start_docker_cmd : Invocation := ⟨["docker start $(docker ps -a -q)"], true⟩

/-- `send_notification`'s `curl` command (lines 240-245). -/
def notify_cmd (url tok utok title msg : String) (priority : Int) : Invocation :=
  ⟨["curl -s " ++ url ++ " -F \"token=" ++ tok ++ "\" -F \"user=" ++ utok ++
      "\" -F \"title=" ++ title ++ "\" -F \"message=" ++ msg ++
      "\" -F \"priority=" ++ toString priority ++ "\""], true⟩

/-- One `borg prune` iteration (lines 254-256). -/
def prune_cmd (pfx repo : String) : Invocation :=
  ⟨["borg prune -v -P " ++ pfx ++
      " --list --keep-daily=1 --keep-weekly=1 --keep-monthly=1 " ++ repo], true⟩

/-- `get_repo_info`'s command (lines 262-266), with default arguments. -/
def info_cmd (repo : String) : Invocation := ⟨["borg info " ++ repo], true⟩

/-- `get_backup_size`'s pipeline (lines 274-278). -/
def size_cmd (repo : String) : Invocation :=
  ⟨["borg info --json " ++ repo ++ " | jq .cache.stats.unique_csize | " ++
      "awk '\x7b printf \"%d\", $1/1024/1024/1024; \x7d'"], true⟩

/-- The guarded `aws s3 sync` (lines 299-302). -/
def aws_sync_cmd (repo bucket profile : String) : Invocation :=
  ⟨["borg with-lock " ++ repo ++ " aws s3 sync " ++ repo ++ " s3://" ++
      bucket ++ " --profile=" ++ profile ++ " --delete"], true⟩

/-- `get_aws_bucket_size`'s pipeline (lines 317-321). -/
def bucket_size_cmd (bucket profile : String) : Invocation :=
  ⟨["aws s3 ls --profile=" ++ profile ++ " --summarize --recursive s3://" ++
      bucket ++ " | tail -1 | " ++
      "awk '\x7b printf \"%.3f GB\", $3/1024/1024/1024; \x7d'"], true⟩

/-- `cleanup`'s two commands (lines 332-333). -/
def rm_cmd (pat : String) : Invocation := ⟨["rm -rf " ++ pat], true⟩

/-- Variable data flowing into the call sites of one run. -/
structure CmdData where
  repo : String
  name : String
  dir : String
  excl : String
  key : String
  host : String
  remoteCmd : String
  rpath : String
  lpath : String
  url : String
  tok : String
  utok : String
  title : String
  msg : String
  bucket : String
  profile : String
  pfx : String

/-- One entry per `subprocess.run` call site in the script. -/
def programInvocations (d : CmdData) : List Invocation :=
  [borg_create_cmd d.repo d.name d.dir d.excl false,
   ssh_cmd d.key d.host d.remoteCmd,
   scp_cmd d.key d.host d.rpath d.lpath,
   router_extract_cmd,
   pihole_extract_cmd,
   stop_docker_cmd,
   start_docker_cmd,
   notify_cmd d.url d.tok d.utok d.title d.msg 0,
   prune_cmd d.pfx d.repo,
   info_cmd d.repo,
   size_cmd d.repo,
   aws_sync_cmd d.repo d.bucket d.profile,
   bucket_size_cmd d.bucket d.profile,
   rm_cmd "openwrt*",
   rm_cmd "pi-hole*"]

/-! ### Substring helper (for the threshold notification message) -/

/-- Is `p` a prefix of the character list? -/
def charsHasPre : List Char → List Char → Bool
  | [], _ => true
  | _ :: _, [] => false
  | a :: ps, b :: bs => a == b && charsHasPre ps bs

/-- Does `p` occur as a contiguous sublist? -/
def charsHasSub (p : List Char) : List Char → Bool
  | [] => charsHasPre p []
  | c :: cs => charsHasPre p (c :: cs) || charsHasSub p cs

/-- Does string `s` contain `pat` as a substring? -/
def strContainsStr (s pat : String) : Bool := charsHasSub pat.data s.data

/-! ### Concrete environments and oracles for witnesses and counterexamples -/

/-- A fully configured environment: every variable is set to its own name
(hence non-empty, and the two repository URIs are distinct);
`BACKUP_THRESHOLD` is left unset. -/
def env0 : EnvT := fun v => if v == "BACKUP_THRESHOLD" then none else some v

/-- `env0` with `BACKUP_THRESHOLD=10`. -/
def env0T : EnvT := fun v =>
  if v == "BACKUP_THRESHOLD" then some "10" else some v

/-- `env0` with `PIHOLE_HOST` unset. -/
def env0Missing : EnvT := fun v => if v == "PIHOLE_HOST" then none else env0 v

/-- An oracle with tunable archive-creation, ssh and extraction outcomes;
everything else succeeds. -/
def mkOracle (createOk : String → String → String → Bool)
    (sshOkF : String → String → Bool) (routerXRc : Int) (syncOk : Bool)
    (sizeOutF : String → Int) : Oracle :=
  ⟨sshOkF, fun _ _ _ => true, true, true, routerXRc, 0, createOk, syncOk,
   fun _ => 0, sizeOutF, 0, "repo stats", true, "1.000 GB", "T"⟩

/-- Everything the external world does succeeds. -/
def oracleAllOk : Oracle :=
  mkOracle (fun _ _ _ => true) (fun _ _ => true) 0 true (fun _ => 1)

/-- Every `borg create` fails. -/
def oracleCreateFail : Oracle :=
  mkOracle (fun _ _ _ => false) (fun _ _ => true) 0 true (fun _ => 1)

/-- Only the home archive fails. -/
def oracleHomeFail : Oracle :=
  mkOracle (fun _ _ d => !(d == "/home")) (fun _ _ => true) 0 true (fun _ => 1)

/-- The router bundle extraction exits with code 1; everything else succeeds. -/
def oracleExtractFail : Oracle :=
  mkOracle (fun _ _ _ => true) (fun _ _ => true) 1 true (fun _ => 1)

/-- The measured deduplicated size is 12 GB. -/
def oracleSize12 : Oracle :=
  mkOracle (fun _ _ _ => true) (fun _ _ => true) 0 true (fun _ => 12)

/-! ### Event predicates -/

/-- Events of the archive pipeline (creation, pruning, replication). -/
def isPipelineE : Event → Bool
  | Event.borgCreate _ _ _ => true
  | Event.prune _ _ => true
  | Event.sizeQuery _ => true
  | Event.awsSync _ => true
  | _ => false

/-- An archive-creation event against repository `r`. -/
def isCreateB (r : String) : Event → Bool
  | Event.borgCreate r2 _ _ => r2 == r
  | _ => false

/-- A prune event against repository `r`. -/
def isPruneB (r : String) : Event → Bool
  | Event.prune r2 _ => r2 == r
  | _ => false

/-- A replication-decision event (size measurement or sync) for `r`. -/
def isReplB (r : String) : Event → Bool
  | Event.sizeQuery r2 => r2 == r
  | Event.awsSync r2 => r2 == r
  | _ => false

/-- A notification event. -/
def isNotifyB : Event → Bool
  | Event.notify _ _ => true
  | _ => false

/-! ### Basic lemmas about the run monad -/

theorem bind_eq {α β : Type} (x : RunM α) (f : α → RunM β) :
    x >>= f = RunM.bind x f := rfl

theorem pure_eq {α : Type} (a : α) : (pure a : RunM α) = ([], Except.ok a) := rfl

theorem RunM.bind_err {α β : Type} {x : RunM α} {f : α → RunM β} {e : Err}
    (h : x.2 = Except.error e) : RunM.bind x f = (x.1, Except.error e) := by
  unfold RunM.bind
  rw [h]

theorem RunM.mem_bind {α β : Type} {ev : Event} {x : RunM α} {f : α → RunM β} :
    ev ∈ (RunM.bind x f).1 ↔
      ev ∈ x.1 ∨ ∃ a, x.2 = Except.ok a ∧ ev ∈ (f a).1 := by
  unfold RunM.bind
  rcases hx : x.2 with e | a <;> simp [hx]

theorem RunM.snd_bind_ok {α β : Type} {x : RunM α} {f : α → RunM β} {b : β} :
    (RunM.bind x f).2 = Except.ok b ↔
      ∃ a, x.2 = Except.ok a ∧ (f a).2 = Except.ok b := by
  unfold RunM.bind
  rcases hx : x.2 with e | a <;> simp [hx]

/-! ### Substring lemmas -/

theorem charsHasPre_self_append (p rest : List Char) :
    charsHasPre p (p ++ rest) = true := by
  induction p with
  | nil => rfl
  | cons a ps ih => simp [charsHasPre, ih]

theorem charsHasSub_nil (t : List Char) : charsHasSub [] t = true := by
  cases t <;> simp [charsHasSub, charsHasPre]

theorem charsHasSub_middle (p u v : List Char) :
    charsHasSub p (u ++ p ++ v) = true := by
  induction u with
  | nil =>
    cases p with
    | nil => simpa using charsHasSub_nil v
    | cons c cs =>
      simpa [charsHasSub] using Or.inl (charsHasPre_self_append (c :: cs) v)
  | cons a us ih =>
    simp only [List.append_assoc] at ih
    simp [charsHasSub, ih]

theorem strContains_of_data (s pat : String) (u v : List Char)
    (h : s.data = u ++ pat.data ++ v) : strContainsStr s pat = true := by
  unfold strContainsStr
  rw [h]
  exact charsHasSub_middle pat.data u v

/-! ### Claim C4 — the replication gate -/

/-- The value `get_backup_size` returns (the measured deduplicated size). -/
def measuredSize (o : Oracle) (repo : String) : Int :=
  if o.sizeRc repo == 0 then o.sizeOut repo else 0

theorem get_backup_size_eq (o : Oracle) (repo : String) :
    get_backup_size o repo = ([Event.sizeQuery repo], Except.ok (measuredSize o repo)) := rfl

/-- Claim C4: for the replication gate (`backup_to_aws`): if the configured
threshold is unset or ≤ 0, the sync is invoked unconditionally without
measuring size; if the threshold is > 0 and the measured deduplicated size
strictly exceeds it, the sync tool is never invoked, the call returns the
skip outcome 1, and a notification containing the measured size and the
threshold is sent. -/
theorem claim4_replication_gate (env : EnvT) (o : Oracle) (repo : String) :
    ((env "BACKUP_THRESHOLD" = none ∨
        (∃ s n, env "BACKUP_THRESHOLD" = some s ∧ intOfStr? s = some n ∧ n ≤ 0)) →
      Event.awsSync repo ∈ (backup_to_aws env o repo).1 ∧
      Event.sizeQuery repo ∉ (backup_to_aws env o repo).1) ∧
    (∀ s n, env "BACKUP_THRESHOLD" = some s → intOfStr? s = some n → 0 < n →
      measuredSize o repo > n →
      Event.awsSync repo ∉ (backup_to_aws env o repo).1 ∧
      (backup_to_aws env o repo).2 = Except.ok 1 ∧
      Event.notify "Backup Threshold" (thresholdMsg (measuredSize o repo) n) ∈
        (backup_to_aws env o repo).1 ∧
      strContainsStr (thresholdMsg (measuredSize o repo) n)
        (toString (measuredSize o repo)) = true ∧
      strContainsStr (thresholdMsg (measuredSize o repo) n) (toString n) = true) := by
  constructor
  · intro h
    have hthr : parseThreshold env = ([], Except.ok 0) ∨
        ∃ n : Int, n ≤ 0 ∧ parseThreshold env = ([], Except.ok n) := by
      rcases h with h | ⟨s, n, hs, hn, hle⟩
      · exact Or.inl (by simp [parseThreshold, h, pure_eq])
      · exact Or.inr ⟨n, hle, by simp [parseThreshold, hs, hn, pure_eq]⟩
    have key : ∀ n : Int, n ≤ 0 → parseThreshold env = ([], Except.ok n) →
        Event.awsSync repo ∈ (backup_to_aws env o repo).1 ∧
        Event.sizeQuery repo ∉ (backup_to_aws env o repo).1 := by
      intro n hle hpt
      have hngt : ¬ (n > 0) := by omega
      cases hsync : o.awsSyncOk <;>
        simp [backup_to_aws, thresholdGate, bind_eq, RunM.bind, hpt, hngt, emit,
          send_notification, pure_eq, hsync]
    rcases hthr with h0 | ⟨n, hle, hn⟩
    · exact key 0 le_rfl h0
    · exact key n hle hn
  · intro s n hs hn hpos hsz
    have hpt : parseThreshold env = ([], Except.ok n) := by
      simp [parseThreshold, hs, hn, pure_eq]
    have hgt : (n > 0) := hpos
    refine ⟨?_, ?_, ?_, ?_, ?_⟩
    · simp [backup_to_aws, thresholdGate, bind_eq, RunM.bind, hpt, hgt,
        get_backup_size_eq, hsz, emit, send_notification, pure_eq]
    · simp [backup_to_aws, thresholdGate, bind_eq, RunM.bind, hpt, hgt,
        get_backup_size_eq, hsz, emit, send_notification, pure_eq]
    · simp [backup_to_aws, thresholdGate, bind_eq, RunM.bind, hpt, hgt,
        get_backup_size_eq, hsz, emit, send_notification, pure_eq]
    · exact strContains_of_data _ _ "Backup size ".data
        (" GB is larger than threshold ".data ++ (toString n).data ++ " GB".data)
        (by simp [thresholdMsg, String.data_append])
    · exact strContains_of_data _ _
        ("Backup size ".data ++ (toString (measuredSize o repo)).data ++
          " GB is larger than threshold ".data) " GB".data
        (by simp [thresholdMsg, String.data_append])

/-- Witness for C4 (spec scenario: threshold 10, measured size 12). -/
theorem claim4_witness :
    Event.awsSync "R" ∉ (backup_to_aws env0T oracleSize12 "R").1 ∧
    (backup_to_aws env0T oracleSize12 "R").2 = Except.ok 1 ∧
    Event.notify "Backup Threshold" (thresholdMsg 12 10) ∈
      (backup_to_aws env0T oracleSize12 "R").1 := by
  have h := (claim4_replication_gate env0T oracleSize12 "R").2 "10" 10
    (by decide) (by decide) (by decide) (by decide)
  exact ⟨h.1, h.2.1, h.2.2.1⟩

/-! ### Claim C9 — invocation forms -/

/-- The property claimed in the spec: every call site passes a discrete argv
list (no shell-interpreted command string). -/
def allDiscreteArgv (d : CmdData) : Prop :=
  ∀ inv ∈ programInvocations d, inv.shell = false

/-- Concrete variable data for the C9 counterexample. -/
def cmdData0 : CmdData :=
  ⟨"R", "N", "D", "E", "K", "root@h", "tar", "p", ".", "u", "t", "ut",
   "T", "M", "B", "P", "x"⟩

/-- Counterexample to C9: at concrete data, not every invocation of the
script is a discrete argv list (e.g. the `ssh` call site is a single
interpolated string run with `shell=True`). -/
theorem claim9_counterexample : ¬ allDiscreteArgv cmdData0 := by
  unfold allDiscreteArgv
  decide

/-- Claim C9 (amended): only the router bundle extraction passes a discrete
argv list; every other call site passes a single shell-interpreted command
string into which the variable data is interpolated. -/
theorem claim9_amended_shell_strings (d : CmdData) :
    (programInvocations d).filter (fun i => !i.shell) = [router_extract_cmd] ∧
    ∀ inv ∈ programInvocations d, inv.shell = true → inv.argv.length = 1 := by
  constructor
  · rfl
  · intro inv hmem hsh
    simp [programInvocations] at hmem
    rcases hmem with h | h | h | h | h | h | h | h | h | h | h | h | h | h | h <;>
      subst h <;>
      simp_all [router_extract_cmd, borg_create_cmd, ssh_cmd, scp_cmd,
        pihole_extract_cmd, stop_docker_cmd, start_docker_cmd, notify_cmd,
        prune_cmd, info_cmd, size_cmd, aws_sync_cmd, bucket_size_cmd, rm_cmd]

/-! ### Lemmas about `borg_create` and `backup_to_repo` -/

theorem borg_create_ok_zero {o : Oracle} {repo nm d e : String} {dr : Bool}
    {n : Int} (h : (borg_create o repo nm d e dr).2 = Except.ok n) : n = 0 := by
  by_cases hc : o.borgCreateOk repo nm d = true <;>
    simp [borg_create, bind_eq, RunM.bind, emit, throwErr, pure_eq, hc] at h <;>
    omega

theorem borg_create_fail {o : Oracle} {repo nm d : String} (e : String)
    (dr : Bool) (h : o.borgCreateOk repo nm d = false) :
    borg_create o repo nm d e dr =
      ([Event.borgCreate repo nm d], Except.error Err.calledProcess) := by
  simp [borg_create, bind_eq, RunM.bind, emit, throwErr, pure_eq, h]

theorem borg_create_succ {o : Oracle} {repo nm d : String} (e : String)
    (dr : Bool) (h : o.borgCreateOk repo nm d = true) :
    borg_create o repo nm d e dr =
      ([Event.borgCreate repo nm d], Except.ok 0) := by
  simp [borg_create, bind_eq, RunM.bind, emit, throwErr, pure_eq, h]

theorem borg_create_events {o : Oracle} {repo nm d e : String} {dr : Bool} :
    ∀ ev ∈ (borg_create o repo nm d e dr).1, ev = Event.borgCreate repo nm d := by
  intro ev hev
  by_cases hc : o.borgCreateOk repo nm d = true <;>
    simp [borg_create, bind_eq, RunM.bind, emit, throwErr, pure_eq, hc] at hev <;>
    exact hev

theorem guardedCreate_events {o : Oracle} {repo : String} {flag : Bool}
    {pre dir : String} :
    ∀ ev ∈ (guardedCreate o repo flag pre dir).1,
      ev = Event.borgCreate repo (mkName pre o.now) dir := by
  cases flag
  · intro ev hev
    simp [guardedCreate, pure_eq] at hev
  · intro ev hev
    simp only [guardedCreate, if_true] at hev
    exact borg_create_events ev hev

theorem guardedCreate_ok_zero {o : Oracle} {repo : String} {flag : Bool}
    {pre dir : String} {n : Int}
    (h : (guardedCreate o repo flag pre dir).2 = Except.ok n) : n = 0 := by
  cases flag
  · simp [guardedCreate, pure_eq] at h
    omega
  · simp only [guardedCreate, if_true] at h
    exact borg_create_ok_zero h

/-- Every event of a `backup_to_repo` pass is an archive creation against
that repository. -/
theorem btr_events (o : Oracle) (r : String) (a b : Bool) :
    ∀ ev ∈ (backup_to_repo o r a b).1, ∃ nm d, ev = Event.borgCreate r nm d := by
  intro ev hev
  simp only [backup_to_repo, bind_eq, RunM.mem_bind] at hev
  rcases hev with h | ⟨_, _, h | ⟨_, _, h | ⟨_, _, h⟩⟩⟩
  · exact ⟨_, _, borg_create_events ev h⟩
  · exact ⟨_, _, guardedCreate_events ev h⟩
  · exact ⟨_, _, guardedCreate_events ev h⟩
  · exact ⟨_, _, borg_create_events ev h⟩

/-- A normally returning `backup_to_repo` returns 0 (`check=True`). -/
theorem btr_ok_zero {o : Oracle} {r : String} {a b : Bool} {n : Int}
    (h : (backup_to_repo o r a b).2 = Except.ok n) : n = 0 := by
  simp only [backup_to_repo, bind_eq, RunM.snd_bind_ok] at h
  obtain ⟨_, _, _, _, _, _, h4⟩ := h
  exact borg_create_ok_zero h4

/-- Counterexample to C2: with every archive creation succeeding except the
home target, the pass against `"R"` aborts immediately: its trace holds only
the home attempt — router, pihole and `/etc` are never attempted — and the
`CalledProcessError` escapes. -/
theorem claim2_counterexample :
    (backup_to_repo oracleHomeFail "R" true true).1 =
      [Event.borgCreate "R" (mkName HOME_PRE "T") "/home"] ∧
    (backup_to_repo oracleHomeFail "R" true true).2 =
      Except.error Err.calledProcess := by
  exact ⟨by decide, rfl⟩

/-- Claim C2 (amended): inside one `backup_to_repo` pass a target's
archive-creation failure raises `CalledProcessError` (`check=True`, no
per-target handler), aborting the pass: the remaining targets are NOT
attempted.  Shown for a failure at the first (home) target and at the
router target. -/
theorem claim2_amended_abort (o : Oracle) (r : String) (a b : Bool) :
    (o.borgCreateOk r (mkName HOME_PRE o.now) "/home" = false →
      backup_to_repo o r a b =
        ([Event.borgCreate r (mkName HOME_PRE o.now) "/home"],
         Except.error Err.calledProcess)) ∧
    (o.borgCreateOk r (mkName HOME_PRE o.now) "/home" = true →
      o.borgCreateOk r (mkName ROUTER_PRE o.now) ROUTER_BACKUP_DIR = false →
      backup_to_repo o r true b =
        ([Event.borgCreate r (mkName HOME_PRE o.now) "/home",
          Event.borgCreate r (mkName ROUTER_PRE o.now) ROUTER_BACKUP_DIR],
         Except.error Err.calledProcess)) := by
  constructor
  · intro h
    simp [backup_to_repo, guardedCreate, bind_eq, RunM.bind, borg_create,
      emit, throwErr, pure_eq, h]
  · intro h1 h2
    simp [backup_to_repo, guardedCreate, bind_eq, RunM.bind, borg_create,
      emit, throwErr, pure_eq, h1, h2]

/-- Witness for C2's amended theorem at a concrete input. -/
theorem claim2_witness :
    backup_to_repo oracleHomeFail "S" false false =
      ([Event.borgCreate "S" (mkName HOME_PRE "T") "/home"],
       Except.error Err.calledProcess) :=
  (claim2_amended_abort oracleHomeFail "S" false false).1 (by decide)

/-! ### Lemmas about the two collection functions -/

instance {ε α : Type} [DecidableEq ε] [DecidableEq α] :
    DecidableEq (Except ε α) := fun x y =>
  match x, y with
  | Except.ok a, Except.ok b =>
    if h : a = b then isTrue (by rw [h])
    else isFalse (fun hc => h (Except.ok.inj hc))
  | Except.error e, Except.error f =>
    if h : e = f then isTrue (by rw [h])
    else isFalse (fun hc => h (Except.error.inj hc))
  | Except.ok _, Except.error _ => isFalse (fun hc => Except.noConfusion hc)
  | Except.error _, Except.ok _ => isFalse (fun hc => Except.noConfusion hc)

/-- If the event is a notification, its title is among `ts`. -/
def notifyTitleIn (ts : List String) : Event → Bool
  | Event.notify t _ => ts.contains t
  | _ => true

/-- The `root@...` target of the router collection. -/
def routerHost (env : EnvT) : String := "root@" ++ envStr env "ROUTER_HOST"

/-- The `pi@...` target of the pihole collection. -/
def piholeHost (env : EnvT) : String := "pi@" ++ envStr env "PIHOLE_HOST"

def routerTarCmd : String := "tar -cvzf " ++ ROUTER_TAR_NAME ++ " /etc"

def routerRmCmd : String := "rm -rf " ++ ROUTER_TAR_NAME

def routerXDesc : String :=
  "tar xzvf " ++ ROUTER_TAR_NAME ++ " -C " ++ ROUTER_BACKUP_DIR

def piholeXDesc : String :=
  "tar xzvf pi-hole-raspberrypi-teleporter* -C " ++ PIHOLE_BACKUP_DIR

theorem router_fail_produce (env : EnvT) (o : Oracle)
    (h1 : o.sshOk (routerHost env) routerTarCmd = false) :
    get_router_backup env o =
      ([Event.sshRun (routerHost env) routerTarCmd],
       Except.error Err.unboundLocal) := by
  simp only [routerHost, routerTarCmd] at h1
  simp [get_router_backup, bind_eq, RunM.bind, tryCPEFirst, tryCPE, ssh, scp,
    emit, send_notification, throwErr, pure_eq, DEBUG, h1, routerHost,
    routerTarCmd]

theorem router_fail_transfer (env : EnvT) (o : Oracle)
    (h1 : o.sshOk (routerHost env) routerTarCmd = true)
    (h2 : o.scpOk (routerHost env) ROUTER_TAR_NAME "." = false) :
    get_router_backup env o =
      ([Event.sshRun (routerHost env) routerTarCmd,
        Event.scpRun (routerHost env) ROUTER_TAR_NAME ".",
        Event.notify "Error retrieving Openwrt.lan backup" "CalledProcessError"],
       Except.ok 1) := by
  simp only [routerHost, routerTarCmd] at h1 h2
  simp [get_router_backup, bind_eq, RunM.bind, tryCPEFirst, tryCPE, ssh, scp, emit,
    send_notification, throwErr, pure_eq, DEBUG, h1, h2, routerHost,
    routerTarCmd]

theorem router_fail_delete (env : EnvT) (o : Oracle)
    (h1 : o.sshOk (routerHost env) routerTarCmd = true)
    (h2 : o.scpOk (routerHost env) ROUTER_TAR_NAME "." = true)
    (h3 : o.sshOk (routerHost env) routerRmCmd = false) :
    get_router_backup env o =
      ([Event.sshRun (routerHost env) routerTarCmd,
        Event.scpRun (routerHost env) ROUTER_TAR_NAME ".",
        Event.sshRun (routerHost env) routerRmCmd,
        Event.notify "Error retrieving Openwrt.lan backup" "CalledProcessError"],
       Except.ok 1) := by
  simp only [routerHost, routerTarCmd, routerRmCmd] at h1 h2 h3
  simp [get_router_backup, bind_eq, RunM.bind, tryCPEFirst, tryCPE, ssh, scp, emit,
    send_notification, throwErr, pure_eq, DEBUG, h1, h2, h3, routerHost,
    routerTarCmd, routerRmCmd]

theorem router_fail_mkdir (env : EnvT) (o : Oracle)
    (h1 : o.sshOk (routerHost env) routerTarCmd = true)
    (h2 : o.scpOk (routerHost env) ROUTER_TAR_NAME "." = true)
    (h3 : o.sshOk (routerHost env) routerRmCmd = true)
    (hm : o.routerMkdirOk = false) :
    get_router_backup env o =
      ([Event.sshRun (routerHost env) routerTarCmd,
        Event.scpRun (routerHost env) ROUTER_TAR_NAME ".",
        Event.sshRun (routerHost env) routerRmCmd,
        Event.mkdirRun ROUTER_BACKUP_DIR],
       Except.error Err.fileExists) := by
  simp only [routerHost, routerTarCmd, routerRmCmd] at h1 h2 h3
  simp [get_router_backup, bind_eq, RunM.bind, tryCPEFirst, tryCPE, ssh, scp, emit,
    send_notification, mkdirStep, throwErr, pure_eq, DEBUG, h1, h2, h3, hm,
    routerHost, routerTarCmd, routerRmCmd]

theorem router_extract_run (env : EnvT) (o : Oracle)
    (h1 : o.sshOk (routerHost env) routerTarCmd = true)
    (h2 : o.scpOk (routerHost env) ROUTER_TAR_NAME "." = true)
    (h3 : o.sshOk (routerHost env) routerRmCmd = true)
    (hm : o.routerMkdirOk = true) :
    get_router_backup env o =
      ([Event.sshRun (routerHost env) routerTarCmd,
        Event.scpRun (routerHost env) ROUTER_TAR_NAME ".",
        Event.sshRun (routerHost env) routerRmCmd,
        Event.mkdirRun ROUTER_BACKUP_DIR,
        Event.tarRun routerXDesc],
       Except.ok o.routerExtractRc) := by
  simp only [routerHost, routerTarCmd, routerRmCmd] at h1 h2 h3
  simp [get_router_backup, bind_eq, RunM.bind, tryCPEFirst, tryCPE, ssh, scp, emit,
    send_notification, mkdirStep, tarStep, throwErr, pure_eq, DEBUG, h1, h2,
    h3, hm, routerHost, routerTarCmd, routerRmCmd, routerXDesc]

theorem pihole_fail_produce (env : EnvT) (o : Oracle)
    (h1 : o.sshOk (piholeHost env) "pihole -a -t" = false) :
    get_pihole_backup env o =
      ([Event.sshRun (piholeHost env) "pihole -a -t"],
       Except.error Err.unboundLocal) := by
  simp only [piholeHost] at h1
  simp [get_pihole_backup, bind_eq, RunM.bind, tryCPEFirst, tryCPE, ssh, scp,
    emit, send_notification, throwErr, pure_eq, DEBUG, h1, piholeHost]

theorem pihole_fail_transfer (env : EnvT) (o : Oracle)
    (h1 : o.sshOk (piholeHost env) "pihole -a -t" = true)
    (h2 : o.scpOk (piholeHost env) "pi-hole*" "." = false) :
    get_pihole_backup env o =
      ([Event.sshRun (piholeHost env) "pihole -a -t",
        Event.scpRun (piholeHost env) "pi-hole*" ".",
        Event.notify "Error retrieving Pi-Hole backup" "CalledProcessError"],
       Except.ok 1) := by
  simp only [piholeHost] at h1 h2
  simp [get_pihole_backup, bind_eq, RunM.bind, tryCPEFirst, tryCPE, ssh, scp, emit,
    send_notification, throwErr, pure_eq, DEBUG, h1, h2, piholeHost]

theorem pihole_fail_delete (env : EnvT) (o : Oracle)
    (h1 : o.sshOk (piholeHost env) "pihole -a -t" = true)
    (h2 : o.scpOk (piholeHost env) "pi-hole*" "." = true)
    (h3 : o.sshOk (piholeHost env) "rm -rf pi-hole*" = false) :
    get_pihole_backup env o =
      ([Event.sshRun (piholeHost env) "pihole -a -t",
        Event.scpRun (piholeHost env) "pi-hole*" ".",
        Event.sshRun (piholeHost env) "rm -rf pi-hole*",
        Event.notify "Error retrieving Pi-Hole backup" "CalledProcessError"],
       Except.ok 1) := by
  simp only [piholeHost] at h1 h2 h3
  simp [get_pihole_backup, bind_eq, RunM.bind, tryCPEFirst, tryCPE, ssh, scp, emit,
    send_notification, throwErr, pure_eq, DEBUG, h1, h2, h3, piholeHost]

theorem pihole_fail_mkdir (env : EnvT) (o : Oracle)
    (h1 : o.sshOk (piholeHost env) "pihole -a -t" = true)
    (h2 : o.scpOk (piholeHost env) "pi-hole*" "." = true)
    (h3 : o.sshOk (piholeHost env) "rm -rf pi-hole*" = true)
    (hm : o.piholeMkdirOk = false) :
    get_pihole_backup env o =
      ([Event.sshRun (piholeHost env) "pihole -a -t",
        Event.scpRun (piholeHost env) "pi-hole*" ".",
        Event.sshRun (piholeHost env) "rm -rf pi-hole*",
        Event.mkdirRun PIHOLE_BACKUP_DIR],
       Except.error Err.fileExists) := by
  simp only [piholeHost] at h1 h2 h3
  simp [get_pihole_backup, bind_eq, RunM.bind, tryCPEFirst, tryCPE, ssh, scp, emit,
    send_notification, mkdirStep, throwErr, pure_eq, DEBUG, h1, h2, h3, hm,
    piholeHost]

theorem pihole_extract_run (env : EnvT) (o : Oracle)
    (h1 : o.sshOk (piholeHost env) "pihole -a -t" = true)
    (h2 : o.scpOk (piholeHost env) "pi-hole*" "." = true)
    (h3 : o.sshOk (piholeHost env) "rm -rf pi-hole*" = true)
    (hm : o.piholeMkdirOk = true) :
    get_pihole_backup env o =
      ([Event.sshRun (piholeHost env) "pihole -a -t",
        Event.scpRun (piholeHost env) "pi-hole*" ".",
        Event.sshRun (piholeHost env) "rm -rf pi-hole*",
        Event.mkdirRun PIHOLE_BACKUP_DIR,
        Event.tarRun piholeXDesc],
       Except.ok o.piholeExtractRc) := by
  simp only [piholeHost] at h1 h2 h3
  simp [get_pihole_backup, bind_eq, RunM.bind, tryCPEFirst, tryCPE, ssh, scp, emit,
    send_notification, mkdirStep, tarStep, throwErr, pure_eq, DEBUG, h1, h2,
    h3, hm, piholeHost, piholeXDesc]

/-! ### Shape lemmas for the pipeline segments -/

theorem checkEnvVars_fst (env : EnvT) (l : List String) :
    (checkEnvVars env l).1 = [] := by
  induction l with
  | nil => rfl
  | cons v vs ih =>
    by_cases h : missingEnv env v = true <;>
      simp [checkEnvVars, h, throwErr, pure_eq, ih]

theorem parseThreshold_fst (env : EnvT) : (parseThreshold env).1 = [] := by
  unfold parseThreshold
  rcases henv : env "BACKUP_THRESHOLD" with _ | s
  · rfl
  · rcases h : intOfStr? s with _ | n <;> simp [h, pure_eq, throwErr]

theorem prune_repo_eq (repo : String) :
    prune_repo repo =
      ([Event.prune repo HOME_PRE, Event.prune repo ROUTER_PRE,
        Event.prune repo PIHOLE_PRE, Event.prune repo ETC_PRE],
       Except.ok ()) := rfl

/-- Everything the router collection emits is collection traffic: never a
pipeline event, and any notification carries the router failure title. -/
theorem router_shape (env : EnvT) (o : Oracle) :
    (∀ ev ∈ (get_router_backup env o).1, isPipelineE ev = false ∧
      notifyTitleIn ["Error retrieving Openwrt.lan backup"] ev = true) ∧
    (o.sshOk (routerHost env) routerTarCmd = true → o.routerMkdirOk = true →
      ∃ n, (get_router_backup env o).2 = Except.ok n) := by
  cases h1 : o.sshOk (routerHost env) routerTarCmd
  · rw [router_fail_produce env o h1]
    refine ⟨?_, fun hs _ => absurd hs (by simp [h1])⟩
    intro ev hev
    simp only [List.mem_cons, List.not_mem_nil, or_false] at hev
    rcases hev with rfl <;> exact ⟨rfl, rfl⟩
  · cases h2 : o.scpOk (routerHost env) ROUTER_TAR_NAME "."
    · rw [router_fail_transfer env o h1 h2]
      refine ⟨?_, fun _ _ => ⟨1, rfl⟩⟩
      intro ev hev
      simp only [List.mem_cons, List.not_mem_nil, or_false] at hev
      rcases hev with rfl | rfl | rfl <;> exact ⟨rfl, rfl⟩
    · cases h3 : o.sshOk (routerHost env) routerRmCmd
      · rw [router_fail_delete env o h1 h2 h3]
        refine ⟨?_, fun _ _ => ⟨1, rfl⟩⟩
        intro ev hev
        simp only [List.mem_cons, List.not_mem_nil, or_false] at hev
        rcases hev with rfl | rfl | rfl | rfl <;> exact ⟨rfl, rfl⟩
      · cases hm : o.routerMkdirOk
        · rw [router_fail_mkdir env o h1 h2 h3 hm]
          refine ⟨?_, fun _ hc => by simp at hc⟩
          intro ev hev
          simp only [List.mem_cons, List.not_mem_nil, or_false] at hev
          rcases hev with rfl | rfl | rfl | rfl <;> exact ⟨rfl, rfl⟩
        · rw [router_extract_run env o h1 h2 h3 hm]
          refine ⟨?_, fun _ _ => ⟨o.routerExtractRc, rfl⟩⟩
          intro ev hev
          simp only [List.mem_cons, List.not_mem_nil, or_false] at hev
          rcases hev with rfl | rfl | rfl | rfl | rfl <;> exact ⟨rfl, rfl⟩

/-- Everything the pihole collection emits is collection traffic. -/
theorem pihole_shape (env : EnvT) (o : Oracle) :
    (∀ ev ∈ (get_pihole_backup env o).1, isPipelineE ev = false ∧
      notifyTitleIn ["Error retrieving Pi-Hole backup"] ev = true) ∧
    (o.sshOk (piholeHost env) "pihole -a -t" = true → o.piholeMkdirOk = true →
      ∃ n, (get_pihole_backup env o).2 = Except.ok n) := by
  cases h1 : o.sshOk (piholeHost env) "pihole -a -t"
  · rw [pihole_fail_produce env o h1]
    refine ⟨?_, fun hs _ => absurd hs (by simp [h1])⟩
    intro ev hev
    simp only [List.mem_cons, List.not_mem_nil, or_false] at hev
    rcases hev with rfl <;> exact ⟨rfl, rfl⟩
  · cases h2 : o.scpOk (piholeHost env) "pi-hole*" "."
    · rw [pihole_fail_transfer env o h1 h2]
      refine ⟨?_, fun _ _ => ⟨1, rfl⟩⟩
      intro ev hev
      simp only [List.mem_cons, List.not_mem_nil, or_false] at hev
      rcases hev with rfl | rfl | rfl <;> exact ⟨rfl, rfl⟩
    · cases h3 : o.sshOk (piholeHost env) "rm -rf pi-hole*"
      · rw [pihole_fail_delete env o h1 h2 h3]
        refine ⟨?_, fun _ _ => ⟨1, rfl⟩⟩
        intro ev hev
        simp only [List.mem_cons, List.not_mem_nil, or_false] at hev
        rcases hev with rfl | rfl | rfl | rfl <;> exact ⟨rfl, rfl⟩
      · cases hm : o.piholeMkdirOk
        · rw [pihole_fail_mkdir env o h1 h2 h3 hm]
          refine ⟨?_, fun _ hc => by simp at hc⟩
          intro ev hev
          simp only [List.mem_cons, List.not_mem_nil, or_false] at hev
          rcases hev with rfl | rfl | rfl | rfl <;> exact ⟨rfl, rfl⟩
        · rw [pihole_extract_run env o h1 h2 h3 hm]
          refine ⟨?_, fun _ _ => ⟨o.piholeExtractRc, rfl⟩⟩
          intro ev hev
          simp only [List.mem_cons, List.not_mem_nil, or_false] at hev
          rcases hev with rfl | rfl | rfl | rfl | rfl <;> exact ⟨rfl, rfl⟩

/-- Every event of `backup_to_aws` is a size query or sync against its own
repository, or one of its two notifications. -/
theorem aws_events (env : EnvT) (o : Oracle) (repo : String) :
    ∀ ev ∈ (backup_to_aws env o repo).1,
      ev = Event.sizeQuery repo ∨ ev = Event.awsSync repo ∨
      (∃ m, ev = Event.notify "Backup Threshold" m) ∨
      (∃ m, ev = Event.notify "Error syncing with AWS" m) := by
  have gate : ∀ n : Int, ∀ ev ∈ (thresholdGate o repo n).1,
      ev = Event.sizeQuery repo ∨
      (∃ m, ev = Event.notify "Backup Threshold" m) := by
    intro n ev hev
    by_cases hgt : n > 0
    · simp only [thresholdGate, hgt, if_true, get_backup_size_eq, bind_eq,
        RunM.mem_bind] at hev
      rcases hev with h | ⟨sz, hsz2, h⟩
      · simp at h
        exact Or.inl h
      · have hszeq : measuredSize o repo = sz := by simpa using hsz2
        subst hszeq
        by_cases hc : measuredSize o repo > n <;>
          simp [hc, send_notification, emit, bind_eq, RunM.mem_bind,
            pure_eq] at h
        exact Or.inr ⟨_, h⟩
    · simp [thresholdGate, hgt, pure_eq] at hev
  intro ev hev
  simp only [backup_to_aws, bind_eq, RunM.mem_bind] at hev
  rcases hev with h | ⟨n, hn, h | ⟨early, hearly, h⟩⟩
  · rw [parseThreshold_fst] at h
    simp at h
  · rcases gate n ev h with h | ⟨m, hm⟩
    · exact Or.inl h
    · exact Or.inr (Or.inr (Or.inl ⟨m, hm⟩))
  · cases early
    · simp only [Bool.false_eq_true, reduceIte, bind_eq, RunM.mem_bind,
        emit] at h
      rcases h with h | ⟨_, _, h⟩
      · simp at h
        exact Or.inr (Or.inl h)
      · cases hsync : o.awsSyncOk <;>
          simp [hsync, send_notification, emit, bind_eq, RunM.mem_bind,
            pure_eq] at h
        exact Or.inr (Or.inr (Or.inr ⟨_, h⟩))
    · simp [pure_eq] at h

/-! ### Claim C7 — the remote collection protocol -/

/-- Counterexample to C7: when the local extraction step (the fourth
protocol step) fails — exit code 1, everything else succeeding — the router
collection records the failure (returns 1) but sends NO notification,
contradicting "a best-effort failure notification is sent" for every failing
step. -/
theorem claim7_counterexample :
    (get_router_backup env0 oracleExtractFail).2 = Except.ok 1 ∧
    (get_router_backup env0 oracleExtractFail).1.all
      (fun e => !(isNotifyB e)) = true := by
  exact ⟨rfl, by decide⟩

/-- Claim C7 (amended): for each collection, a failure of the FIRST remote
step (produce) is fatal and unnotified — the except handler's
`logger.debug(result)` raises `UnboundLocalError` because `result` is
unbound (lines 143/167) — while a failure of the transfer or delete step
aborts the remaining steps, sends the device's failure notification and
returns the failure code 1 (non-fatal); a failure of the fourth step (local
extraction) returns the tool's non-zero exit code with no notification. -/
theorem claim7_amended_collection (env : EnvT) (o : Oracle) :
    ((o.sshOk (routerHost env) routerTarCmd = false →
      get_router_backup env o =
        ([Event.sshRun (routerHost env) routerTarCmd],
         Except.error Err.unboundLocal)) ∧
     (o.sshOk (routerHost env) routerTarCmd = true →
      o.scpOk (routerHost env) ROUTER_TAR_NAME "." = false →
      get_router_backup env o =
        ([Event.sshRun (routerHost env) routerTarCmd,
          Event.scpRun (routerHost env) ROUTER_TAR_NAME ".",
          Event.notify "Error retrieving Openwrt.lan backup" "CalledProcessError"],
         Except.ok 1)) ∧
     (o.sshOk (routerHost env) routerTarCmd = true →
      o.scpOk (routerHost env) ROUTER_TAR_NAME "." = true →
      o.sshOk (routerHost env) routerRmCmd = false →
      get_router_backup env o =
        ([Event.sshRun (routerHost env) routerTarCmd,
          Event.scpRun (routerHost env) ROUTER_TAR_NAME ".",
          Event.sshRun (routerHost env) routerRmCmd,
          Event.notify "Error retrieving Openwrt.lan backup" "CalledProcessError"],
         Except.ok 1)) ∧
     (o.sshOk (routerHost env) routerTarCmd = true →
      o.scpOk (routerHost env) ROUTER_TAR_NAME "." = true →
      o.sshOk (routerHost env) routerRmCmd = true →
      o.routerMkdirOk = true → o.routerExtractRc ≠ 0 →
      (get_router_backup env o).2 = Except.ok o.routerExtractRc ∧
      ∀ ev ∈ (get_router_backup env o).1, isNotifyB ev = false)) ∧
    ((o.sshOk (piholeHost env) "pihole -a -t" = false →
      get_pihole_backup env o =
        ([Event.sshRun (piholeHost env) "pihole -a -t"],
         Except.error Err.unboundLocal)) ∧
     (o.sshOk (piholeHost env) "pihole -a -t" = true →
      o.scpOk (piholeHost env) "pi-hole*" "." = false →
      get_pihole_backup env o =
        ([Event.sshRun (piholeHost env) "pihole -a -t",
          Event.scpRun (piholeHost env) "pi-hole*" ".",
          Event.notify "Error retrieving Pi-Hole backup" "CalledProcessError"],
         Except.ok 1)) ∧
     (o.sshOk (piholeHost env) "pihole -a -t" = true →
      o.scpOk (piholeHost env) "pi-hole*" "." = true →
      o.sshOk (piholeHost env) "rm -rf pi-hole*" = false →
      get_pihole_backup env o =
        ([Event.sshRun (piholeHost env) "pihole -a -t",
          Event.scpRun (piholeHost env) "pi-hole*" ".",
          Event.sshRun (piholeHost env) "rm -rf pi-hole*",
          Event.notify "Error retrieving Pi-Hole backup" "CalledProcessError"],
         Except.ok 1)) ∧
     (o.sshOk (piholeHost env) "pihole -a -t" = true →
      o.scpOk (piholeHost env) "pi-hole*" "." = true →
      o.sshOk (piholeHost env) "rm -rf pi-hole*" = true →
      o.piholeMkdirOk = true → o.piholeExtractRc ≠ 0 →
      (get_pihole_backup env o).2 = Except.ok o.piholeExtractRc ∧
      ∀ ev ∈ (get_pihole_backup env o).1, isNotifyB ev = false)) := by
  refine ⟨⟨fun h1 => router_fail_produce env o h1,
           fun h1 h2 => router_fail_transfer env o h1 h2,
           fun h1 h2 h3 => router_fail_delete env o h1 h2 h3, ?_⟩,
          ⟨fun h1 => pihole_fail_produce env o h1,
           fun h1 h2 => pihole_fail_transfer env o h1 h2,
           fun h1 h2 h3 => pihole_fail_delete env o h1 h2 h3, ?_⟩⟩
  · intro h1 h2 h3 hm _
    rw [router_extract_run env o h1 h2 h3 hm]
    refine ⟨rfl, ?_⟩
    intro ev hev
    simp only [List.mem_cons, List.not_mem_nil, or_false] at hev
    rcases hev with rfl | rfl | rfl | rfl | rfl <;> rfl
  · intro h1 h2 h3 hm _
    rw [pihole_extract_run env o h1 h2 h3 hm]
    refine ⟨rfl, ?_⟩
    intro ev hev
    simp only [List.mem_cons, List.not_mem_nil, or_false] at hev
    rcases hev with rfl | rfl | rfl | rfl | rfl <;> rfl

/-- An oracle where only the router's remote bundle production fails. -/
def oracleRouterSshFail : Oracle :=
  mkOracle (fun _ _ _ => true) (fun _ c => !(c == routerTarCmd)) 0 true
    (fun _ => 1)

/-- An oracle where only the router's bundle transfer (scp) fails. -/
def oracleRouterScpFail : Oracle :=
  ⟨fun _ _ => true, fun _ rp _ => !(rp == ROUTER_TAR_NAME), true, true, 0, 0,
   fun _ _ _ => true, true, fun _ => 0, fun _ => 1, 0, "repo stats", true,
   "1.000 GB", "T"⟩

/-- Witness for C7's amended theorem at concrete inputs: a failing transfer
step notifies and returns 1; a failing produce step is fatal. -/
theorem claim7_witness :
    get_router_backup env0 oracleRouterScpFail =
      ([Event.sshRun (routerHost env0) routerTarCmd,
        Event.scpRun (routerHost env0) ROUTER_TAR_NAME ".",
        Event.notify "Error retrieving Openwrt.lan backup" "CalledProcessError"],
       Except.ok 1) ∧
    get_router_backup env0 oracleRouterSshFail =
      ([Event.sshRun (routerHost env0) routerTarCmd],
       Except.error Err.unboundLocal) :=
  ⟨(claim7_amended_collection env0 oracleRouterScpFail).1.2.1 (by decide)
      (by decide),
   (claim7_amended_collection env0 oracleRouterSshFail).1.1 (by decide)⟩

/-! ### Small component lemmas for the `main` chases -/

theorem setExtPassphrase_fst (env : EnvT) : (setExtPassphrase env).1 = [] := by
  unfold setExtPassphrase
  rcases env "BORG_EXTDRIVE_PASSPHRASE" with _ | s <;> rfl

theorem maybePrune_events (repo : String) (s : Int) :
    ∀ ev ∈ (maybePrune repo s).1, ∃ p, ev = Event.prune repo p := by
  intro ev hev
  by_cases h : s == 0
  · rw [maybePrune, if_pos h, prune_repo_eq] at hev
    simp only [List.mem_cons, List.not_mem_nil, or_false] at hev
    rcases hev with rfl | rfl | rfl | rfl <;> exact ⟨_, rfl⟩
  · rw [maybePrune, if_neg h] at hev
    simp [pure_eq] at hev

theorem maybePrune_ok (repo : String) (s : Int) :
    (maybePrune repo s).2 = Except.ok () := by
  by_cases h : s == 0
  · rw [maybePrune, if_pos h, prune_repo_eq]
  · rw [maybePrune, if_neg h]
    rfl

theorem cleanup_eq :
    cleanup = ([Event.rmRun "openwrt*", Event.rmRun "pi-hole*"],
      Except.ok ()) := rfl

theorem bucket_eq (o : Oracle) :
    get_aws_bucket_size o =
      ([Event.bucketSize],
       Except.ok (if o.bucketSizeOk then o.bucketSizeOut else "")) := rfl

theorem finalNotify_zero (binfo bucket : String) :
    finalNotify 0 binfo bucket =
      ([Event.notify "Backup Successful"
          ("Borg NAS Stats: \n" ++ binfo ++ "\nAWS bucket size: " ++ bucket)],
       Except.ok ()) := rfl

theorem finalNotify_events (s : Int) (binfo bucket : String) :
    ∀ ev ∈ (finalNotify s binfo bucket).1,
      (∃ m, ev = Event.notify "Backup Successful" m) ∨
      (∃ m, ev = Event.notify "Backup failed" m) := by
  intro ev hev
  by_cases h : s == 0 <;>
    simp only [finalNotify, h, if_true, if_false, Bool.false_eq_true,
      reduceIte, send_notification, emit, List.mem_singleton] at hev
  · exact Or.inl ⟨_, hev⟩
  · exact Or.inr ⟨_, hev⟩

theorem finalNotify_ok (s : Int) (binfo bucket : String) :
    (finalNotify s binfo bucket).2 = Except.ok () := by
  by_cases h : s == 0 <;>
    simp [finalNotify, h, send_notification, emit]

theorem thresholdGate_ok (o : Oracle) (repo : String) (n : Int) :
    ∃ b, (thresholdGate o repo n).2 = Except.ok b := by
  by_cases hgt : n > 0
  · by_cases hsz : measuredSize o repo > n <;>
      simp [thresholdGate, hgt, hsz, get_backup_size_eq, bind_eq, RunM.bind,
        send_notification, emit, pure_eq]
  · simp [thresholdGate, hgt, pure_eq]

theorem primaryPostCreate_events (env : EnvT) (o : Oracle) (repo : String)
    (status : Int) :
    ∀ ev ∈ (primaryPostCreate env o repo status).1,
      (∃ p, ev = Event.prune repo p) ∨ ev = Event.sizeQuery repo ∨
      ev = Event.awsSync repo ∨
      (∃ m, ev = Event.notify "Backup Threshold" m) ∨
      (∃ m, ev = Event.notify "Error syncing with AWS" m) ∨
      ev = Event.infoQuery repo := by
  intro ev hev
  by_cases h : status == 0
  · simp only [primaryPostCreate, h, if_true, bind_eq, RunM.mem_bind,
      prune_repo_eq] at hev
    rcases hev with h1 | ⟨_, _, h1 | ⟨_, _, h1⟩⟩
    · simp only [List.mem_cons, List.not_mem_nil, or_false] at h1
      rcases h1 with rfl | rfl | rfl | rfl <;> exact Or.inl ⟨_, rfl⟩
    · rcases aws_events env o repo ev h1 with h2 | h2 | h2 | h2
      · exact Or.inr (Or.inl h2)
      · exact Or.inr (Or.inr (Or.inl h2))
      · exact Or.inr (Or.inr (Or.inr (Or.inl h2)))
      · exact Or.inr (Or.inr (Or.inr (Or.inr (Or.inl h2))))
    · simp only [get_repo_info, bind_eq, RunM.mem_bind, emit,
        List.mem_singleton, pure_eq] at h1
      rcases h1 with h1 | ⟨_, _, h1⟩
      · exact Or.inr (Or.inr (Or.inr (Or.inr (Or.inr h1))))
      · simp at h1
  · simp [primaryPostCreate, h, pure_eq] at hev

/-- `checkEnvVars` succeeds iff no checked variable is missing; otherwise it
is exactly `exit(1)` with an empty trace. -/
theorem checkEnvVars_cases (env : EnvT) (l : List String) :
    (l.all (fun v => !(missingEnv env v)) = true ∧
      checkEnvVars env l = ([], Except.ok ())) ∨
    (l.any (missingEnv env) = true ∧
      checkEnvVars env l = ([], Except.error (Err.exited 1))) := by
  induction l with
  | nil => exact Or.inl ⟨rfl, rfl⟩
  | cons v vs ih =>
    by_cases h : missingEnv env v = true
    · exact Or.inr ⟨by simp [h], by simp [checkEnvVars, h, throwErr]⟩
    · rcases ih with ⟨hall, heq⟩ | ⟨hany, heq⟩
      · exact Or.inl ⟨by simp [h, hall], by simp [checkEnvVars, h, heq]⟩
      · exact Or.inr ⟨by simp [h, hany], by simp [checkEnvVars, h, heq]⟩

/-! ### Error classification -/

theorem RunM.snd_bind_err {α β : Type} {x : RunM α} {f : α → RunM β}
    {e : Err} :
    (RunM.bind x f).2 = Except.error e ↔
      x.2 = Except.error e ∨ ∃ a, x.2 = Except.ok a ∧ (f a).2 = Except.error e := by
  unfold RunM.bind
  rcases hx : x.2 with e2 | a <;> simp [hx]

theorem borg_create_err {o : Oracle} {repo nm d ex : String} {dr : Bool}
    {e : Err} (h : (borg_create o repo nm d ex dr).2 = Except.error e) :
    e = Err.calledProcess := by
  by_cases hc : o.borgCreateOk repo nm d = true <;>
    simp [borg_create, bind_eq, RunM.bind, emit, throwErr, pure_eq, hc] at h <;>
    tauto

theorem guardedCreate_err {o : Oracle} {repo : String} {flag : Bool}
    {pre dir : String} {e : Err}
    (h : (guardedCreate o repo flag pre dir).2 = Except.error e) :
    e = Err.calledProcess := by
  cases flag
  · simp [guardedCreate, pure_eq] at h
  · simp only [guardedCreate, if_true] at h
    exact borg_create_err h

theorem btr_err {o : Oracle} {r : String} {a b : Bool} {e : Err}
    (h : (backup_to_repo o r a b).2 = Except.error e) :
    e = Err.calledProcess := by
  simp only [backup_to_repo, bind_eq, RunM.snd_bind_err] at h
  rcases h with h | ⟨_, _, h | ⟨_, _, h | ⟨_, _, h⟩⟩⟩
  · exact borg_create_err h
  · exact guardedCreate_err h
  · exact guardedCreate_err h
  · exact borg_create_err h

theorem router_err {env : EnvT} {o : Oracle} {e : Err}
    (h : (get_router_backup env o).2 = Except.error e) :
    e = Err.fileExists ∨ e = Err.unboundLocal := by
  cases h1 : o.sshOk (routerHost env) routerTarCmd
  · rw [router_fail_produce env o h1] at h
    simp only at h
    exact Or.inr (Except.error.inj h).symm
  · cases h2 : o.scpOk (routerHost env) ROUTER_TAR_NAME "."
    · rw [router_fail_transfer env o h1 h2] at h
      simp at h
    · cases h3 : o.sshOk (routerHost env) routerRmCmd
      · rw [router_fail_delete env o h1 h2 h3] at h
        simp at h
      · cases hm : o.routerMkdirOk
        · rw [router_fail_mkdir env o h1 h2 h3 hm] at h
          simp only at h
          exact Or.inl (Except.error.inj h).symm
        · rw [router_extract_run env o h1 h2 h3 hm] at h
          simp at h

theorem pihole_err {env : EnvT} {o : Oracle} {e : Err}
    (h : (get_pihole_backup env o).2 = Except.error e) :
    e = Err.fileExists ∨ e = Err.unboundLocal := by
  cases h1 : o.sshOk (piholeHost env) "pihole -a -t"
  · rw [pihole_fail_produce env o h1] at h
    simp only at h
    exact Or.inr (Except.error.inj h).symm
  · cases h2 : o.scpOk (piholeHost env) "pi-hole*" "."
    · rw [pihole_fail_transfer env o h1 h2] at h
      simp at h
    · cases h3 : o.sshOk (piholeHost env) "rm -rf pi-hole*"
      · rw [pihole_fail_delete env o h1 h2 h3] at h
        simp at h
      · cases hm : o.piholeMkdirOk
        · rw [pihole_fail_mkdir env o h1 h2 h3 hm] at h
          simp only at h
          exact Or.inl (Except.error.inj h).symm
        · rw [pihole_extract_run env o h1 h2 h3 hm] at h
          simp at h

theorem parseThreshold_err {env : EnvT} {e : Err}
    (h : (parseThreshold env).2 = Except.error e) : e = Err.valueError := by
  unfold parseThreshold at h
  rcases henv : env "BACKUP_THRESHOLD" with _ | s <;> rw [henv] at h
  · simp [pure_eq] at h
  · rcases hi : intOfStr? s with _ | n
    · have h2 : (throwErr Err.valueError : RunM Int).2 = Except.error e := by
        rw [← h]
        show _ = (match intOfStr? s with
          | some k => (pure k : RunM Int)
          | none => throwErr Err.valueError).2
        rw [hi]
      simpa [throwErr] using h2.symm
    · have h2 : ((pure n : RunM Int)).2 = Except.error e := by
        rw [← h]
        show _ = (match intOfStr? s with
          | some k => (pure k : RunM Int)
          | none => throwErr Err.valueError).2
        rw [hi]
      simp [pure_eq] at h2

theorem backup_to_aws_err {env : EnvT} {o : Oracle} {repo : String} {e : Err}
    (h : (backup_to_aws env o repo).2 = Except.error e) :
    e = Err.valueError := by
  simp only [backup_to_aws, bind_eq, RunM.snd_bind_err] at h
  rcases h with h | ⟨n, hn, h | ⟨early, hearly, h⟩⟩
  · exact parseThreshold_err h
  · obtain ⟨b, hb⟩ := thresholdGate_ok o repo n
    rw [hb] at h
    simp at h
  · cases early
    · simp only [Bool.false_eq_true, reduceIte, bind_eq, RunM.snd_bind_err,
        emit] at h
      rcases h with h | ⟨_, _, h⟩
      · simp at h
      · cases hsync : o.awsSyncOk <;>
          simp [hsync, send_notification, emit, bind_eq, RunM.snd_bind_err,
            pure_eq] at h
    · simp [pure_eq] at h

theorem primaryPostCreate_err {env : EnvT} {o : Oracle} {repo : String}
    {status : Int} {e : Err}
    (h : (primaryPostCreate env o repo status).2 = Except.error e) :
    e = Err.valueError := by
  by_cases h0 : status == 0
  · simp only [primaryPostCreate, h0, if_true, bind_eq,
      RunM.snd_bind_err] at h
    rcases h with h | ⟨_, _, h | ⟨_, _, h⟩⟩
    · rw [prune_repo_eq] at h
      simp at h
    · exact backup_to_aws_err h
    · simp [get_repo_info, bind_eq, RunM.snd_bind_err, emit, pure_eq] at h
  · simp [primaryPostCreate, h0, pure_eq] at h

theorem setExtPassphrase_err {env : EnvT} {e : Err}
    (h : (setExtPassphrase env).2 = Except.error e) : e = Err.typeError := by
  unfold setExtPassphrase at h
  rcases henv : env "BORG_EXTDRIVE_PASSPHRASE" with _ | s <;> rw [henv] at h
  · simpa [throwErr] using h.symm
  · simp [pure_eq] at h

/-- `exit(...)` is called only by the startup configuration check: `main`
terminates via `SystemExit` exactly when a checked variable is missing, the
code is 1, and nothing has been executed before (empty trace). -/
theorem main_exit_iff (env : EnvT) (o : Oracle) (n : Nat) :
    (main env o).2 = Except.error (Err.exited n) ↔
      (n = 1 ∧ ENV_VARS.any (missingEnv env) = true) := by
  constructor
  · intro h
    simp only [main, bind_eq, RunM.snd_bind_err] at h
    rcases checkEnvVars_cases env ENV_VARS with ⟨hall, heq⟩ | ⟨hany, heq⟩
    · rcases h with h | ⟨_, _, h⟩
      · rw [heq] at h
        simp at h
      · rcases h with h | ⟨rrc, hrrc, h⟩
        · rcases router_err h with h2 | h2 <;> exact absurd h2 (by simp)
        · rcases h with h | ⟨prc, hprc, h⟩
          · rcases pihole_err h with h2 | h2 <;> exact absurd h2 (by simp)
          · rcases h with h | ⟨_, _, h⟩
            · simp [stop_docker, emit] at h
            · rcases h with h | ⟨st, hst, h⟩
              · exact absurd (btr_err h) (by simp)
              · rcases h with h | ⟨binfo, hbinfo, h⟩
                · exact absurd (primaryPostCreate_err h) (by simp)
                · rcases h with h | ⟨_, _, h⟩
                  · exact absurd (setExtPassphrase_err h) (by simp)
                  · rcases h with h | ⟨st2, hst2, h⟩
                    · exact absurd (btr_err h) (by simp)
                    · rcases h with h | ⟨_, _, h⟩
                      · rw [maybePrune_ok] at h
                        simp at h
                      · rcases h with h | ⟨_, _, h⟩
                        · rw [cleanup_eq] at h
                          simp at h
                        · rcases h with h | ⟨_, _, h⟩
                          · simp [start_docker, emit] at h
                          · rcases h with h | ⟨_, _, h⟩
                            · rw [bucket_eq] at h
                              simp at h
                            · rw [finalNotify_ok] at h
                              simp at h
    · rcases h with h | ⟨u, hu, h⟩
      · rw [heq] at h
        simp only at h
        exact ⟨(Err.exited.inj (Except.error.inj h)).symm, hany⟩
      · rw [heq] at hu
        simp at hu
  · rintro ⟨rfl, hany⟩
    rcases checkEnvVars_cases env ENV_VARS with ⟨hall, heq⟩ | ⟨_, heq⟩
    · simp only [List.all_eq_true] at hall
      simp only [List.any_eq_true] at hany
      obtain ⟨v, hv, hm⟩ := hany
      have := hall v hv
      simp [hm] at this
    · simp only [main, bind_eq]
      rw [RunM.bind_err (show (checkEnvVars env ENV_VARS).2 =
        Except.error (Err.exited 1) from by rw [heq])]

theorem maybePrune_zero (repo : String) : maybePrune repo 0 = prune_repo repo := by
  simp [maybePrune]

/-- A normally-returning run determines every intermediate result: the
configuration check passed, both collections returned, both passes returned
0, and the passphrase swap succeeded. -/
theorem main_ok_pieces {env : EnvT} {o : Oracle}
    (h : (main env o).2 = Except.ok ()) :
    ∃ rrc prc binfo,
      ENV_VARS.all (fun v => !(missingEnv env v)) = true ∧
      (get_router_backup env o).2 = Except.ok rrc ∧
      (get_pihole_backup env o).2 = Except.ok prc ∧
      (backup_to_repo o (envStr env "BORG_REPO") (rrc == 0) (prc == 0)).2 =
        Except.ok 0 ∧
      (primaryPostCreate env o (envStr env "BORG_REPO") 0).2 =
        Except.ok binfo ∧
      setExtPassphrase env = ([], Except.ok ()) ∧
      (backup_to_repo o (envStr env "BORG_EXTDRIVE_REPO")
        (rrc == 0) (prc == 0)).2 = Except.ok 0 := by
  simp only [main, bind_eq, RunM.snd_bind_ok] at h
  obtain ⟨u0, hck, rrc, hrrc, prc, hprc, u1, hstop, st, hst, binfo, hbinfo,
    u2, hpass, st2, hst2, u3, hmp, u4, hcl, u5, hsd, bkt, hbkt, hfin⟩ := h
  have h0 : st = 0 := btr_ok_zero hst
  subst h0
  have h20 : st2 = 0 := btr_ok_zero hst2
  subst h20
  refine ⟨rrc, prc, binfo, ?_, hrrc, hprc, hst, hbinfo, ?_, hst2⟩
  · rcases checkEnvVars_cases env ENV_VARS with ⟨hall, _⟩ | ⟨_, heq⟩
    · exact hall
    · rw [heq] at hck
      simp at hck
  · calc setExtPassphrase env
        = ((setExtPassphrase env).1, (setExtPassphrase env).2) := rfl
      _ = ([], Except.ok ()) := by rw [setExtPassphrase_fst, hpass]

/-- Every event of a run comes from one of the pipeline's segments, with the
provenance needed to reason about it. -/
theorem main_mem_cases (env : EnvT) (o : Oracle) (ev : Event)
    (hev : ev ∈ (main env o).1) :
    ev ∈ (get_router_backup env o).1 ∨
    ev ∈ (get_pihole_backup env o).1 ∨
    ev = Event.stopDocker ∨
    (∃ rrc prc : Int, (get_router_backup env o).2 = Except.ok rrc ∧
      (get_pihole_backup env o).2 = Except.ok prc ∧
      ev ∈ (backup_to_repo o (envStr env "BORG_REPO")
        (rrc == 0) (prc == 0)).1) ∨
    (∃ status : Int,
      ev ∈ (primaryPostCreate env o (envStr env "BORG_REPO") status).1) ∨
    (∃ rrc prc : Int, (get_router_backup env o).2 = Except.ok rrc ∧
      (get_pihole_backup env o).2 = Except.ok prc ∧
      ev ∈ (backup_to_repo o (envStr env "BORG_EXTDRIVE_REPO")
        (rrc == 0) (prc == 0)).1) ∨
    (∃ status2 : Int,
      ev ∈ (maybePrune (envStr env "BORG_EXTDRIVE_REPO") status2).1) ∨
    ev ∈ cleanup.1 ∨
    ev = Event.startDocker ∨
    ev = Event.bucketSize ∨
    (∃ (rrc prc : Int) (status2 : Int) (binfo bucket : String),
      (backup_to_repo o (envStr env "BORG_EXTDRIVE_REPO")
        (rrc == 0) (prc == 0)).2 = Except.ok status2 ∧
      ev ∈ (finalNotify status2 binfo bucket).1) := by
  simp only [main, bind_eq, RunM.mem_bind] at hev
  rw [checkEnvVars_fst] at hev
  simp only [List.not_mem_nil, false_or] at hev
  obtain ⟨u0, hck, hev⟩ := hev
  rcases hev with h | ⟨rrc, hrrc, hev⟩
  · exact Or.inl h
  rcases hev with h | ⟨prc, hprc, hev⟩
  · exact Or.inr (Or.inl h)
  rcases hev with h | ⟨u1, hstop, hev⟩
  · simp only [stop_docker, emit, List.mem_singleton] at h
    exact Or.inr (Or.inr (Or.inl h))
  rcases hev with h | ⟨st, hst, hev⟩
  · exact Or.inr (Or.inr (Or.inr (Or.inl ⟨rrc, prc, hrrc, hprc, h⟩)))
  rcases hev with h | ⟨binfo, hbinfo, hev⟩
  · exact Or.inr (Or.inr (Or.inr (Or.inr (Or.inl ⟨st, h⟩))))
  rw [setExtPassphrase_fst] at hev
  simp only [List.not_mem_nil, false_or] at hev
  obtain ⟨u2, hpass, hev⟩ := hev
  rcases hev with h | ⟨st2, hst2, hev⟩
  · exact Or.inr (Or.inr (Or.inr (Or.inr (Or.inr (Or.inl
      ⟨rrc, prc, hrrc, hprc, h⟩)))))
  rcases hev with h | ⟨u3, hmp, hev⟩
  · exact Or.inr (Or.inr (Or.inr (Or.inr (Or.inr (Or.inr (Or.inl ⟨st2, h⟩))))))
  rcases hev with h | ⟨u4, hcl, hev⟩
  · exact Or.inr (Or.inr (Or.inr (Or.inr (Or.inr (Or.inr (Or.inr
      (Or.inl h)))))))
  rcases hev with h | ⟨u5, hsd, hev⟩
  · simp only [start_docker, emit, List.mem_singleton] at h
    exact Or.inr (Or.inr (Or.inr (Or.inr (Or.inr (Or.inr (Or.inr (Or.inr
      (Or.inl h))))))))
  rcases hev with h | ⟨bkt, hbkt, hev⟩
  · rw [bucket_eq] at h
    simp only [List.mem_singleton] at h
    exact Or.inr (Or.inr (Or.inr (Or.inr (Or.inr (Or.inr (Or.inr (Or.inr
      (Or.inr (Or.inl h)))))))))
  · exact Or.inr (Or.inr (Or.inr (Or.inr (Or.inr (Or.inr (Or.inr (Or.inr
      (Or.inr (Or.inr ⟨rrc, prc, st2, binfo, bkt, hst2, hev⟩)))))))))

/-- The configuration check fully succeeds when no variable is missing. -/
theorem checkEnvVars_ok_of_all {env : EnvT}
    (hall : ENV_VARS.all (fun v => !(missingEnv env v)) = true) :
    checkEnvVars env ENV_VARS = ([], Except.ok ()) := by
  rcases checkEnvVars_cases env ENV_VARS with ⟨_, heq⟩ | ⟨hany, _⟩
  · exact heq
  · exfalso
    simp only [List.any_eq_true] at hany
    obtain ⟨v, hv, hm⟩ := hany
    simp only [List.all_eq_true] at hall
    have := hall v hv
    simp [hm] at this

/-- Positive membership: the `stop_docker` event is in every run trace that
got past the collections. -/
theorem main_mem_stop {env : EnvT} {o : Oracle} {rrc prc : Int}
    (hcheck : checkEnvVars env ENV_VARS = ([], Except.ok ()))
    (hrrc : (get_router_backup env o).2 = Except.ok rrc)
    (hprc : (get_pihole_backup env o).2 = Except.ok prc) :
    Event.stopDocker ∈ (main env o).1 := by
  simp only [main, bind_eq, RunM.mem_bind]
  exact Or.inr ⟨(), by rw [hcheck], Or.inr ⟨rrc, hrrc, Or.inr ⟨prc, hprc,
    Or.inl (by simp [stop_docker, emit])⟩⟩⟩

/-- Positive membership: an event of the post-secondary tail (prune,
cleanup, start, bucket query, final notification) is in the run trace. -/
theorem main_mem_post2 {env : EnvT} {o : Oracle} {rrc prc : Int}
    {binfo : String} {ev : Event}
    (hcheck : checkEnvVars env ENV_VARS = ([], Except.ok ()))
    (hrrc : (get_router_backup env o).2 = Except.ok rrc)
    (hprc : (get_pihole_backup env o).2 = Except.ok prc)
    (hb1 : (backup_to_repo o (envStr env "BORG_REPO")
      (rrc == 0) (prc == 0)).2 = Except.ok 0)
    (hppc : (primaryPostCreate env o (envStr env "BORG_REPO") 0).2 =
      Except.ok binfo)
    (hpass : setExtPassphrase env = ([], Except.ok ()))
    (hb2 : (backup_to_repo o (envStr env "BORG_EXTDRIVE_REPO")
      (rrc == 0) (prc == 0)).2 = Except.ok 0)
    (h : ev ∈ (maybePrune (envStr env "BORG_EXTDRIVE_REPO") 0).1 ∨
         ev ∈ cleanup.1 ∨ ev = Event.startDocker ∨ ev = Event.bucketSize ∨
         ev ∈ (finalNotify 0 binfo
           (if o.bucketSizeOk then o.bucketSizeOut else "")).1) :
    ev ∈ (main env o).1 := by
  simp only [main, bind_eq, RunM.mem_bind]
  refine Or.inr ⟨(), by rw [hcheck], Or.inr ⟨rrc, hrrc, Or.inr ⟨prc, hprc,
    Or.inr ⟨(), rfl, Or.inr ⟨0, hb1, Or.inr ⟨binfo, hppc,
    Or.inr ⟨(), by rw [hpass], Or.inr ⟨0, hb2, ?_⟩⟩⟩⟩⟩⟩⟩⟩
  rcases h with h | h | h | h | h
  · exact Or.inl h
  · exact Or.inr ⟨(), maybePrune_ok _ _, Or.inl h⟩
  · exact Or.inr ⟨(), maybePrune_ok _ _, Or.inr ⟨(), by rw [cleanup_eq],
      Or.inl (by simp [start_docker, emit, h])⟩⟩
  · exact Or.inr ⟨(), maybePrune_ok _ _, Or.inr ⟨(), by rw [cleanup_eq],
      Or.inr ⟨(), rfl, Or.inl (by rw [bucket_eq]; simp [h])⟩⟩⟩
  · exact Or.inr ⟨(), maybePrune_ok _ _, Or.inr ⟨(), by rw [cleanup_eq],
      Or.inr ⟨(), rfl, Or.inr ⟨_, by rw [bucket_eq], h⟩⟩⟩⟩

/-! ### Claim C10 — `check=True` makes the failure branch unreachable -/

/-- Claim C10: whenever `backup_to_repo` returns normally it returns 0
(`check=True` raises instead of returning non-zero), so whenever `main`
reaches the final notification the status is 0: the "Backup failed" branch
is unreachable, and every run either sends "Backup Successful" or dies
earlier with an uncaught exception. -/
theorem claim10_unreachable_failure (env : EnvT) (o : Oracle) :
    (∀ (r : String) (a b : Bool) (n : Int),
      (backup_to_repo o r a b).2 = Except.ok n → n = 0) ∧
    (∀ m, Event.notify "Backup failed" m ∉ (main env o).1) ∧
    ((main env o).2 = Except.ok () →
      ∃ m, Event.notify "Backup Successful" m ∈ (main env o).1) := by
  refine ⟨fun r a b n h => btr_ok_zero h, ?_, ?_⟩
  · intro m hmem
    rcases main_mem_cases env o _ hmem with h | h | h | h | h | h | h | h |
      h | h | h
    · have := ((router_shape env o).1 _ h).2
      simp [notifyTitleIn] at this
    · have := ((pihole_shape env o).1 _ h).2
      simp [notifyTitleIn] at this
    · simp at h
    · obtain ⟨rrc, prc, _, _, hmem2⟩ := h
      obtain ⟨nm, d, hc⟩ := btr_events _ _ _ _ _ hmem2
      simp at hc
    · obtain ⟨st, hmem2⟩ := h
      rcases primaryPostCreate_events env o _ st _ hmem2 with
        ⟨p, hc⟩ | hc | hc | ⟨m2, hc⟩ | ⟨m2, hc⟩ | hc <;> simp at hc
    · obtain ⟨rrc, prc, _, _, hmem2⟩ := h
      obtain ⟨nm, d, hc⟩ := btr_events _ _ _ _ _ hmem2
      simp at hc
    · obtain ⟨st2, hmem2⟩ := h
      obtain ⟨p, hc⟩ := maybePrune_events _ _ _ hmem2
      simp at hc
    · rw [cleanup_eq] at h
      simp at h
    · simp at h
    · simp at h
    · obtain ⟨rrc, prc, st2, binfo, bucket, hst2, hmem2⟩ := h
      have h0 : st2 = 0 := btr_ok_zero hst2
      subst h0
      rw [finalNotify_zero] at hmem2
      simp at hmem2
  · intro hok
    obtain ⟨rrc, prc, binfo, hall, hrrc, hprc, hb1, hppc, hpass, hb2⟩ :=
      main_ok_pieces hok
    have hcheck := checkEnvVars_ok_of_all hall
    refine ⟨"Borg NAS Stats: \n" ++ binfo ++ "\nAWS bucket size: " ++
      (if o.bucketSizeOk then o.bucketSizeOut else ""), ?_⟩
    refine main_mem_post2 hcheck hrrc hprc hb1 hppc hpass hb2 ?_
    refine Or.inr (Or.inr (Or.inr (Or.inr ?_)))
    rw [finalNotify_zero]
    simp

/-- Witness for C10 at a fully successful concrete run. -/
theorem claim10_witness :
    ∃ m, Event.notify "Backup Successful" m ∈ (main env0 oracleAllOk).1 :=
  (claim10_unreachable_failure env0 oracleAllOk).2.2 (by decide)

/-! ### Claim C1 — guaranteed service resumption -/

/-- Counterexample to C1: when archive creation fails (all `borg create`
calls fail, everything else succeeds), the services are stopped but never
restarted — the `CalledProcessError` escapes before `start_docker`. -/
theorem claim1_counterexample :
    Event.stopDocker ∈ (main env0 oracleCreateFail).1 ∧
    Event.startDocker ∉ (main env0 oracleCreateFail).1 := by
  constructor <;> decide

/-- Claim C1 (amended): the matching `start_docker` runs only on runs where
no exception escapes the backup section: whenever `main` returns normally,
both the stop and the start are in the trace.  (When archive creation raises
partway through, `start_docker` is never reached.) -/
theorem claim1_amended_resume (env : EnvT) (o : Oracle)
    (h : (main env o).2 = Except.ok ()) :
    Event.stopDocker ∈ (main env o).1 ∧
    Event.startDocker ∈ (main env o).1 := by
  obtain ⟨rrc, prc, binfo, hall, hrrc, hprc, hb1, hppc, hpass, hb2⟩ :=
    main_ok_pieces h
  have hcheck := checkEnvVars_ok_of_all hall
  constructor
  · exact main_mem_stop hcheck hrrc hprc
  · exact main_mem_post2 hcheck hrrc hprc hb1 hppc hpass hb2
      (Or.inr (Or.inr (Or.inl rfl)))

/-- Witness for C1's amended theorem at a fully successful concrete run. -/
theorem claim1_witness :
    Event.stopDocker ∈ (main env0 oracleAllOk).1 ∧
    Event.startDocker ∈ (main env0 oracleAllOk).1 :=
  claim1_amended_resume env0 oracleAllOk (by decide)

/-! ### Claim C3 — what the exit code depends on -/

/-- Counterexample to C8: with every required variable present, a run whose
archive creations fail still terminates fatally (exit code 1, uncaught
`CalledProcessError`) — missing configuration is NOT the only fatal
condition. -/
theorem claim8_counterexample :
    ENV_VARS.all (fun v => !(missingEnv env0 v)) = true ∧
    exitCode (main env0 oracleCreateFail) = 1 := by
  constructor <;> decide

/-- Claim C8 (amended): the run terminates by `exit(1)` exactly when one of
the ten checked variables (hosts, key path, the two repository URIs, bucket,
profile, and the three notification values — repository passphrases are NOT
checked) is unset or empty, and in that case it stops before any side
effect (empty trace); however, a later archive-creation failure is also
fatal (uncaught exception), so missing configuration is not the only fatal
condition. -/
theorem claim8_amended_failfast (env : EnvT) (o : Oracle) :
    (∀ n, (main env o).2 = Except.error (Err.exited n) ↔
      (n = 1 ∧ ENV_VARS.any (missingEnv env) = true)) ∧
    (ENV_VARS.any (missingEnv env) = true → (main env o).1 = []) := by
  refine ⟨fun n => main_exit_iff env o n, ?_⟩
  intro hany
  rcases checkEnvVars_cases env ENV_VARS with ⟨hall, _⟩ | ⟨_, heq⟩
  · exfalso
    simp only [List.any_eq_true] at hany
    obtain ⟨v, hv, hm⟩ := hany
    simp only [List.all_eq_true] at hall
    have := hall v hv
    simp [hm] at this
  · simp only [main, bind_eq]
    rw [RunM.bind_err (show (checkEnvVars env ENV_VARS).2 =
      Except.error (Err.exited 1) from by rw [heq])]
    exact checkEnvVars_fst env ENV_VARS

/-- Witness for C8's amended theorem: a missing `PIHOLE_HOST` halts with an
empty trace. -/
theorem claim8_witness : (main env0Missing oracleAllOk).1 = [] :=
  (claim8_amended_failfast env0Missing oracleAllOk).2 (by decide)

/-! ### Claim C5 — collection gating of targets -/

/-- Phase of an event in the pipeline, given the primary and secondary
repository URIs: primary creations (1) < primary prunes (2) < primary
replication decisions (3) < secondary creations (4) < secondary prunes (5);
everything else is 0. -/
def phaseE (r1 r2 : String) : Event → Nat
  | Event.borgCreate r _ _ => if r == r1 then 1 else if r == r2 then 4 else 0
  | Event.prune r _ => if r == r1 then 2 else if r == r2 then 5 else 0
  | Event.sizeQuery r => if r == r1 then 3 else if r == r2 then 6 else 0
  | Event.awsSync r => if r == r1 then 3 else if r == r2 then 6 else 0
  | _ => 0

/-- Sortedness relation by phase; phase-0 events are unconstrained. -/
def phOrd (φ : Event → Nat) (a b : Event) : Prop :=
  φ a = 0 ∨ φ b = 0 ∨ φ a ≤ φ b

/-- A run segment whose trace is phase-sorted with all phases in `[k, j]`
(or 0). -/
def RunSeg (φ : Event → Nat) (k j : Nat) {α : Type} (x : RunM α) : Prop :=
  x.1.Pairwise (phOrd φ) ∧ ∀ u ∈ x.1, φ u = 0 ∨ (k ≤ φ u ∧ φ u ≤ j)

theorem pairwise_of_forall_both {α : Type} {R : α → α → Prop} {t : List α}
    (h : ∀ a ∈ t, ∀ b ∈ t, R a b) : t.Pairwise R := by
  induction t with
  | nil => exact List.Pairwise.nil
  | cons x xs ih =>
    refine List.Pairwise.cons (fun b hb => h x (by simp) b (by simp [hb])) ?_
    exact ih (fun a ha b hb => h a (by simp [ha]) b (by simp [hb]))

/-- A segment whose events all have phase 0 or a single phase `j`. -/
theorem runSeg_of_mem_or {φ : Event → Nat} {j : Nat} {α : Type} {x : RunM α}
    (h : ∀ u ∈ x.1, φ u = 0 ∨ φ u = j) : RunSeg φ j j x := by
  constructor
  · refine pairwise_of_forall_both (fun a ha b hb => ?_)
    rcases h a ha with h1 | h1
    · exact Or.inl h1
    · rcases h b hb with h2 | h2
      · exact Or.inr (Or.inl h2)
      · exact Or.inr (Or.inr (by omega))
  · intro u hu
    rcases h u hu with h1 | h1
    · exact Or.inl h1
    · exact Or.inr (by omega)

theorem RunSeg.mono {φ : Event → Nat} {k j k2 j2 : Nat} {α : Type}
    {x : RunM α} (h : RunSeg φ k j x) (hk : k2 ≤ k) (hj : j ≤ j2) :
    RunSeg φ k2 j2 x := by
  refine ⟨h.1, fun u hu => ?_⟩
  rcases h.2 u hu with h1 | h1
  · exact Or.inl h1
  · exact Or.inr (by omega)

/-- Sequencing two phase-sorted segments with non-overlapping phase bands. -/
theorem RunSeg.bind {φ : Event → Nat} {k j j2 m : Nat} {α β : Type}
    {x : RunM α} {f : α → RunM β}
    (hx : RunSeg φ k j x)
    (hf : ∀ a, x.2 = Except.ok a → RunSeg φ j2 m (f a))
    (hkj : k ≤ j) (hjj2 : j ≤ j2) (hj2m : j2 ≤ m) :
    RunSeg φ k m (RunM.bind x f) := by
  unfold RunM.bind
  rcases hres : x.2 with e | a
  · exact ⟨hx.1, fun u hu => by
      rcases hx.2 u hu with h1 | h1
      · exact Or.inl h1
      · exact Or.inr (by omega)⟩
  · have hfa := hf a hres
    constructor
    · simp only [List.pairwise_append]
      refine ⟨hx.1, hfa.1, fun u hu v hv => ?_⟩
      rcases hx.2 u hu with h1 | h1
      · exact Or.inl h1
      · rcases hfa.2 v hv with h2 | h2
        · exact Or.inr (Or.inl h2)
        · exact Or.inr (Or.inr (by omega))
    · intro u hu
      rcases List.mem_append.mp hu with h1 | h1
      · rcases hx.2 u h1 with h2 | h2
        · exact Or.inl h2
        · exact Or.inr (by omega)
      · rcases hfa.2 u h1 with h2 | h2
        · exact Or.inl h2
        · exact Or.inr (by omega)

/-- `RunSeg.bind` with the phase levels given positionally. -/
theorem runSeg_bind_at (k j j2 m : Nat) {φ : Event → Nat} {α β : Type}
    {x : RunM α} {f : α → RunM β}
    (hx : RunSeg φ k j x)
    (hf : ∀ a, x.2 = Except.ok a → RunSeg φ j2 m (f a))
    (hkj : k ≤ j) (hjj2 : j ≤ j2) (hj2m : j2 ≤ m) :
    RunSeg φ k m (RunM.bind x f) :=
  RunSeg.bind hx hf hkj hjj2 hj2m

theorem phase_of_neutral {r1 r2 : String} {ev : Event}
    (h : isPipelineE ev = false) : phaseE r1 r2 ev = 0 := by
  cases ev <;> first | rfl | simp [isPipelineE] at h

theorem phase_create_self {r1 r2 nm d : String} :
    phaseE r1 r2 (Event.borgCreate r1 nm d) = 1 := by
  simp [phaseE]

theorem phase_prune_self {r1 r2 p : String} :
    phaseE r1 r2 (Event.prune r1 p) = 2 := by
  simp [phaseE]

theorem phase_create_snd {r1 r2 nm d : String} (hne : r1 ≠ r2) :
    phaseE r1 r2 (Event.borgCreate r2 nm d) = 4 := by
  simp [phaseE, beq_eq_false_iff_ne.mpr (Ne.symm hne)]

theorem phase_prune_snd {r1 r2 p : String} (hne : r1 ≠ r2) :
    phaseE r1 r2 (Event.prune r2 p) = 5 := by
  simp [phaseE, beq_eq_false_iff_ne.mpr (Ne.symm hne)]

theorem phase_size_self {r1 r2 : String} :
    phaseE r1 r2 (Event.sizeQuery r1) = 3 := by
  simp [phaseE]

theorem phase_sync_self {r1 r2 : String} :
    phaseE r1 r2 (Event.awsSync r1) = 3 := by
  simp [phaseE]

/-- A segment that emits no pipeline events sits at any phase band. -/
theorem runSeg_neutral {r1 r2 : String} {j : Nat} {α : Type} {x : RunM α}
    (h : ∀ u ∈ x.1, isPipelineE u = false) : RunSeg (phaseE r1 r2) j j x :=
  runSeg_of_mem_or (fun u hu => Or.inl (phase_of_neutral (h u hu)))

theorem seg_btr_fst (o : Oracle) (r1 r2 : String) (a b : Bool) :
    RunSeg (phaseE r1 r2) 1 1 (backup_to_repo o r1 a b) :=
  runSeg_of_mem_or (fun u hu => by
    obtain ⟨nm, d, rfl⟩ := btr_events o r1 a b u hu
    exact Or.inr phase_create_self)

theorem seg_btr_snd (o : Oracle) (r1 r2 : String) (a b : Bool)
    (hne : r1 ≠ r2) : RunSeg (phaseE r1 r2) 4 4 (backup_to_repo o r2 a b) :=
  runSeg_of_mem_or (fun u hu => by
    obtain ⟨nm, d, rfl⟩ := btr_events o r2 a b u hu
    exact Or.inr (phase_create_snd hne))

theorem seg_prune_fst (r1 r2 : String) :
    RunSeg (phaseE r1 r2) 2 2 (prune_repo r1) :=
  runSeg_of_mem_or (fun u hu => by
    rw [prune_repo_eq] at hu
    simp only [List.mem_cons, List.not_mem_nil, or_false] at hu
    rcases hu with rfl | rfl | rfl | rfl <;> exact Or.inr phase_prune_self)

theorem seg_aws (env : EnvT) (o : Oracle) (r1 r2 : String) :
    RunSeg (phaseE r1 r2) 3 3 (backup_to_aws env o r1) :=
  runSeg_of_mem_or (fun u hu => by
    rcases aws_events env o r1 u hu with h | h | ⟨m, h⟩ | ⟨m, h⟩ <;> subst h
    · exact Or.inr phase_size_self
    · exact Or.inr phase_sync_self
    · exact Or.inl rfl
    · exact Or.inl rfl)

theorem seg_ppc (env : EnvT) (o : Oracle) (r1 r2 : String) (status : Int) :
    RunSeg (phaseE r1 r2) 2 3 (primaryPostCreate env o r1 status) := by
  by_cases h : status == 0
  · simp only [primaryPostCreate, h, if_true, bind_eq]
    refine RunSeg.bind (seg_prune_fst r1 r2) (fun _ _ => ?_)
      le_rfl (by omega) le_rfl
    refine RunSeg.bind (seg_aws env o r1 r2) (fun _ _ => ?_)
      le_rfl le_rfl le_rfl
    refine runSeg_neutral (fun u hu => ?_)
    simp only [get_repo_info, bind_eq, RunM.mem_bind, emit,
      List.mem_singleton, pure_eq] at hu
    rcases hu with rfl | ⟨_, _, hu⟩
    · rfl
    · simp at hu
  · simp only [primaryPostCreate, h, Bool.false_eq_true, reduceIte]
    exact RunSeg.mono (runSeg_neutral (j := 3) (fun u hu => by
      simp [pure_eq] at hu)) (by omega) le_rfl

theorem seg_mp (r1 r2 : String) (s2 : Int) (hne : r1 ≠ r2) :
    RunSeg (phaseE r1 r2) 5 5 (maybePrune r2 s2) :=
  runSeg_of_mem_or (fun u hu => by
    obtain ⟨p, rfl⟩ := maybePrune_events r2 s2 u hu
    exact Or.inr (phase_prune_snd hne))

/-- The whole run trace is phase-sorted: primary creations precede primary
prunes precede primary replication decisions precede secondary creations
precede secondary prunes. -/
theorem main_master (env : EnvT) (o : Oracle)
    (hne : envStr env "BORG_REPO" ≠ envStr env "BORG_EXTDRIVE_REPO") :
    RunSeg (phaseE (envStr env "BORG_REPO") (envStr env "BORG_EXTDRIVE_REPO"))
      1 5 (main env o) := by
  simp only [main, bind_eq]
  refine runSeg_bind_at 1 1 1 5 (runSeg_neutral (fun u hu => by
      rw [checkEnvVars_fst] at hu
      simp at hu))
    (fun _ _ => ?_) le_rfl le_rfl (by omega)
  refine runSeg_bind_at 1 1 1 5 (runSeg_neutral
      (fun u hu => ((router_shape env o).1 u hu).1))
    (fun rrc _ => ?_) le_rfl le_rfl (by omega)
  refine runSeg_bind_at 1 1 1 5 (runSeg_neutral
      (fun u hu => ((pihole_shape env o).1 u hu).1))
    (fun prc _ => ?_) le_rfl le_rfl (by omega)
  refine runSeg_bind_at 1 1 1 5 (runSeg_neutral (fun u hu => by
      simp only [stop_docker, emit, List.mem_singleton] at hu
      subst hu
      rfl))
    (fun _ _ => ?_) le_rfl le_rfl (by omega)
  refine runSeg_bind_at 1 1 2 5 (seg_btr_fst o _ _ _ _) (fun status _ => ?_)
    le_rfl (by omega) (by omega)
  refine runSeg_bind_at 2 3 4 5 (seg_ppc env o _ _ status)
    (fun binfo _ => ?_) (by omega) (by omega) (by omega)
  refine runSeg_bind_at 4 4 4 5 (runSeg_neutral (fun u hu => by
      rw [setExtPassphrase_fst] at hu
      simp at hu))
    (fun _ _ => ?_) le_rfl le_rfl (by omega)
  refine runSeg_bind_at 4 4 5 5 (seg_btr_snd o _ _ _ _ hne)
    (fun status2 _ => ?_) le_rfl (by omega) (by omega)
  refine runSeg_bind_at 5 5 5 5 (seg_mp _ _ status2 hne) (fun _ _ => ?_)
    le_rfl le_rfl le_rfl
  refine runSeg_bind_at 5 5 5 5 (runSeg_neutral (fun u hu => by
      rw [cleanup_eq] at hu
      simp only [List.mem_cons, List.not_mem_nil, or_false] at hu
      rcases hu with rfl | rfl <;> rfl))
    (fun _ _ => ?_) le_rfl le_rfl le_rfl
  refine runSeg_bind_at 5 5 5 5 (runSeg_neutral (fun u hu => by
      simp only [start_docker, emit, List.mem_singleton] at hu
      subst hu
      rfl))
    (fun _ _ => ?_) le_rfl le_rfl le_rfl
  refine runSeg_bind_at 5 5 5 5 (runSeg_neutral (fun u hu => by
      rw [bucket_eq] at hu
      simp only [List.mem_singleton] at hu
      subst hu
      rfl))
    (fun bucket _ => ?_) le_rfl le_rfl le_rfl
  refine runSeg_neutral (fun u hu => ?_)
  rcases finalNotify_events _ _ _ u hu with ⟨m, rfl⟩ | ⟨m, rfl⟩ <;> rfl

theorem phase_isPrune_fst {r1 r2 : String} {a : Event}
    (h : isPruneB r1 a = true) : phaseE r1 r2 a = 2 := by
  cases a <;> simp_all [isPruneB, phaseE]

theorem phase_isCreate_fst {r1 r2 : String} {a : Event}
    (h : isCreateB r1 a = true) : phaseE r1 r2 a = 1 := by
  cases a <;> simp_all [isCreateB, phaseE]

theorem phase_isRepl_fst {r1 r2 : String} {a : Event}
    (h : isReplB r1 a = true) : phaseE r1 r2 a = 3 := by
  cases a <;> simp_all [isReplB, phaseE]

theorem phase_isPrune_snd {r1 r2 : String} {a : Event} (hne : r1 ≠ r2)
    (h : isPruneB r2 a = true) : phaseE r1 r2 a = 5 := by
  cases a <;> simp_all [isPruneB, phaseE]
  intro hc
  exact absurd hc.symm hne

theorem phase_isCreate_snd {r1 r2 : String} {a : Event} (hne : r1 ≠ r2)
    (h : isCreateB r2 a = true) : phaseE r1 r2 a = 4 := by
  cases a <;> simp_all [isCreateB, phaseE]
  intro hc
  exact absurd hc.symm hne

theorem phase_isRepl_snd {r1 r2 : String} {a : Event} (hne : r1 ≠ r2)
    (h : isReplB r2 a = true) : phaseE r1 r2 a = 6 := by
  cases a <;> simp_all [isReplB, phaseE] <;>
    exact fun hc => absurd hc.symm hne

theorem exists_of_isPruneB {r : String} {a : Event}
    (h : isPruneB r a = true) : ∃ p, a = Event.prune r p := by
  cases a <;> simp_all [isPruneB]

theorem or_of_isReplB {r : String} {a : Event} (h : isReplB r a = true) :
    a = Event.sizeQuery r ∨ a = Event.awsSync r := by
  cases a <;> simp_all [isReplB]

/-- Prune events of a run only target the two configured repositories, and
replication-decision events only the primary one. -/
theorem main_pipe_repo (env : EnvT) (o : Oracle) :
    ∀ ev ∈ (main env o).1,
      (∀ r p, ev = Event.prune r p →
        r = envStr env "BORG_REPO" ∨ r = envStr env "BORG_EXTDRIVE_REPO") ∧
      (∀ r, (ev = Event.sizeQuery r ∨ ev = Event.awsSync r) →
        r = envStr env "BORG_REPO") := by
  intro ev hev
  rcases main_mem_cases env o _ hev with h | h | h | h | h | h | h | h |
    h | h | h
  · refine ⟨fun r p hevp => ?_, fun r hevr => ?_⟩
    · have := ((router_shape env o).1 _ h).1
      rw [hevp] at this
      simp [isPipelineE] at this
    · have := ((router_shape env o).1 _ h).1
      rcases hevr with rfl | rfl <;> simp [isPipelineE] at this
  · refine ⟨fun r p hevp => ?_, fun r hevr => ?_⟩
    · have := ((pihole_shape env o).1 _ h).1
      rw [hevp] at this
      simp [isPipelineE] at this
    · have := ((pihole_shape env o).1 _ h).1
      rcases hevr with rfl | rfl <;> simp [isPipelineE] at this
  · subst h
    exact ⟨fun r p hevp => by simp at hevp,
           fun r hevr => by rcases hevr with h | h <;> simp at h⟩
  · obtain ⟨rrc, prc, _, _, hm⟩ := h
    obtain ⟨nm, d, rfl⟩ := btr_events _ _ _ _ _ hm
    exact ⟨fun r p hevp => by simp at hevp,
           fun r hevr => by rcases hevr with h | h <;> simp at h⟩
  · obtain ⟨st, hm⟩ := h
    rcases primaryPostCreate_events env o _ st _ hm with
      ⟨p2, rfl⟩ | rfl | rfl | ⟨m2, rfl⟩ | ⟨m2, rfl⟩ | rfl
    · exact ⟨fun r p hevp => by
        simp only [Event.prune.injEq] at hevp
        exact Or.inl hevp.1.symm,
        fun r hevr => by rcases hevr with h | h <;> simp at h⟩
    · exact ⟨fun r p hevp => by simp at hevp,
        fun r hevr => by
          rcases hevr with h | h
          · simp only [Event.sizeQuery.injEq] at h
            exact h.symm
          · simp at h⟩
    · exact ⟨fun r p hevp => by simp at hevp,
        fun r hevr => by
          rcases hevr with h | h
          · simp at h
          · simp only [Event.awsSync.injEq] at h
            exact h.symm⟩
    · exact ⟨fun r p hevp => by simp at hevp,
        fun r hevr => by rcases hevr with h | h <;> simp at h⟩
    · exact ⟨fun r p hevp => by simp at hevp,
        fun r hevr => by rcases hevr with h | h <;> simp at h⟩
    · exact ⟨fun r p hevp => by simp at hevp,
        fun r hevr => by rcases hevr with h | h <;> simp at h⟩
  · obtain ⟨rrc, prc, _, _, hm⟩ := h
    obtain ⟨nm, d, rfl⟩ := btr_events _ _ _ _ _ hm
    exact ⟨fun r p hevp => by simp at hevp,
           fun r hevr => by rcases hevr with h | h <;> simp at h⟩
  · obtain ⟨s2, hm⟩ := h
    obtain ⟨p2, rfl⟩ := maybePrune_events _ _ _ hm
    exact ⟨fun r p hevp => by
      simp only [Event.prune.injEq] at hevp
      exact Or.inr hevp.1.symm,
      fun r hevr => by rcases hevr with h | h <;> simp at h⟩
  · rw [cleanup_eq] at h
    simp only [List.mem_cons, List.not_mem_nil, or_false] at h
    rcases h with rfl | rfl <;>
      exact ⟨fun r p hevp => by simp at hevp,
             fun r hevr => by rcases hevr with h | h <;> simp at h⟩
  · subst h
    exact ⟨fun r p hevp => by simp at hevp,
           fun r hevr => by rcases hevr with h | h <;> simp at h⟩
  · subst h
    exact ⟨fun r p hevp => by simp at hevp,
           fun r hevr => by rcases hevr with h | h <;> simp at h⟩
  · obtain ⟨rrc, prc, st2, binfo, bucket, hst2, hm⟩ := h
    rcases finalNotify_events _ _ _ _ hm with ⟨m2, rfl⟩ | ⟨m2, rfl⟩ <;>
      exact ⟨fun r p hevp => by simp at hevp,
             fun r hevr => by rcases hevr with h | h <;> simp at h⟩

theorem pairwise_not_left {P Q : Event → Prop} {t : List Event}
    (h : ∀ a ∈ t, ¬ P a) :
    t.Pairwise (fun a b => ¬(P a ∧ Q b)) :=
  pairwise_of_forall_both (fun a ha _ _ hpq => h a ha hpq.1)

/-- Claim C6: for each repository, all archive creations against it
strictly precede all prunes of it, all prunes strictly precede any
replication decision for it, and creations precede replication decisions
(stated as: the forbidden inversions never occur in the run trace), for any
outcome of the external world, provided the two configured repositories
are distinct. -/
theorem claim6_ordering (env : EnvT) (o : Oracle)
    (hne : envStr env "BORG_REPO" ≠ envStr env "BORG_EXTDRIVE_REPO")
    (r : String) :
    (main env o).1.Pairwise
      (fun a b => ¬(isPruneB r a = true ∧ isCreateB r b = true)) ∧
    (main env o).1.Pairwise
      (fun a b => ¬(isReplB r a = true ∧ isPruneB r b = true)) ∧
    (main env o).1.Pairwise
      (fun a b => ¬(isReplB r a = true ∧ isCreateB r b = true)) := by
  have master := (main_master env o hne).1
  by_cases hr1 : r = envStr env "BORG_REPO"
  · subst hr1
    refine ⟨List.Pairwise.imp ?_ master, List.Pairwise.imp ?_ master,
      List.Pairwise.imp ?_ master⟩
    · intro a b hord hpq
      rw [phOrd, phase_isPrune_fst hpq.1, phase_isCreate_fst hpq.2] at hord
      omega
    · intro a b hord hpq
      rw [phOrd, phase_isRepl_fst hpq.1, phase_isPrune_fst hpq.2] at hord
      omega
    · intro a b hord hpq
      rw [phOrd, phase_isRepl_fst hpq.1, phase_isCreate_fst hpq.2] at hord
      omega
  · by_cases hr2 : r = envStr env "BORG_EXTDRIVE_REPO"
    · subst hr2
      refine ⟨List.Pairwise.imp ?_ master, List.Pairwise.imp ?_ master,
        List.Pairwise.imp ?_ master⟩
      · intro a b hord hpq
        rw [phOrd, phase_isPrune_snd hne hpq.1,
          phase_isCreate_snd hne hpq.2] at hord
        omega
      · intro a b hord hpq
        rw [phOrd, phase_isRepl_snd hne hpq.1,
          phase_isPrune_snd hne hpq.2] at hord
        omega
      · intro a b hord hpq
        rw [phOrd, phase_isRepl_snd hne hpq.1,
          phase_isCreate_snd hne hpq.2] at hord
        omega
    · have hp : ∀ a ∈ (main env o).1, ¬ (isPruneB r a = true) := by
        intro a ha hpa
        obtain ⟨p, rfl⟩ := exists_of_isPruneB hpa
        rcases (main_pipe_repo env o _ ha).1 r p rfl with h | h
        · exact hr1 h
        · exact hr2 h
      have hrepl : ∀ a ∈ (main env o).1, ¬ (isReplB r a = true) := by
        intro a ha hra
        rcases or_of_isReplB hra with rfl | rfl
        · exact hr1 ((main_pipe_repo env o _ ha).2 r (Or.inl rfl))
        · exact hr1 ((main_pipe_repo env o _ ha).2 r (Or.inr rfl))
      exact ⟨pairwise_not_left hp, pairwise_not_left hrepl,
        pairwise_not_left hrepl⟩

/-- Witness for C6 at a concrete successful run and the primary repo. -/
theorem claim6_witness :
    (main env0 oracleAllOk).1.Pairwise
      (fun a b => ¬(isPruneB "BORG_REPO" a = true ∧
        isCreateB "BORG_REPO" b = true)) :=
  (claim6_ordering env0 oracleAllOk (by decide) "BORG_REPO").1

end BorgBackup
